import Mathlib

/-! GPGAuth authentication model (`background_page/model/auth.js`).

A shallow embedding of `Auth.verify`, `Auth.getServerKey`, `Auth.login`, `Auth.stage1`,
`Auth.stage2` and `Auth.onResponseError`, followed by the tab list of the Chrome `PageMod`
wrapper and by `PassboltAuth.init`.

* A JavaScript promise is modelled by its final state (`Outcome`): pending, resolved or
  rejected. `resolve`/`reject` of a `new Promise` executor settle it once; later calls are
  ignored.
* Collaborators that live outside `auth.js` (Crypto, Keyring, User settings, the l10n
  function `__`, `fetch`, `urldecode`, `stripslashes`) are fields of `Env`. Promises returned by
  collaborators are assumed to settle, so they are `Except Err _` values.
* Calls with an observable effect (transport, encrypt, decrypt, token generation) are logged in
  `State`, which is passed explicitly.
-/

namespace Passbolt

/-! ## JavaScript values -/

/-- A thrown or rejected JavaScript error object: constructor name and `message`. -/
structure Err where
  name : String
  message : String
deriving DecidableEq, Repr

/-- The object `new Error(message)`. -/
def Err.new (message : String) : Err := ⟨"Error", message⟩

/-- The `TypeError` raised when a property is read from `undefined` or `null`; `what` names
the failed read (the wording of the message depends on the engine). -/
def typeError (what : String) : Err := ⟨"TypeError", what⟩

/-- A parsed JSON value. `lit` stands for a number, a boolean or an array and carries its
JavaScript string conversion; `obj` lists the own properties of an object. -/
inductive Json where
  | null
  | str (s : String)
  | lit (text : String)
  | obj (fields : List (String × Json))

/-- Property read `j.key`: a `TypeError` on `null`, the property (or `undefined`, here `none`)
otherwise. -/
def Json.prop (j : Json) (key : String) : Except Err (Option Json) :=
  match j with
  | .null => .error (typeError ("Cannot read property " ++ key ++ " of null"))
  | .obj fields => .ok (fields.lookup key)
  | .str _ => .ok none
  | .lit _ => .ok none

/-- The `message` of `new Error(v)`: empty for `undefined`, the string conversion of `v`
otherwise. -/
def errorMessageOf : Option Json → String
  | none => ""
  | some .null => "null"
  | some (.str s) => s
  | some (.lit text) => text
  | some (.obj _) => "[object Object]"

/-- String conversion of a possibly `undefined` string, as done by `+` on strings. -/
def jsStr : Option String → String
  | none => "undefined"
  | some s => s

/-- The final state of a promise. -/
inductive Outcome (α : Type) where
  | pending
  | resolved (value : α)
  | rejected (reason : Err)
deriving DecidableEq, Repr

/-- The `resolve` callback handed to a promise executor: settles a pending promise. -/
def Outcome.resolve {α : Type} (p : Outcome α) (value : α) : Outcome α :=
  match p with
  | .pending => .resolved value
  | settled => settled

/-- The `reject` callback handed to a promise executor: settles a pending promise. -/
def Outcome.reject {α : Type} (p : Outcome α) (reason : Err) : Outcome α :=
  match p with
  | .pending => .rejected reason
  | settled => settled

/-! ## Transport -/

/-- A `fetch` call: the url and the init object (`method`, `credentials`, the `FormData`
entries of `body` in append order). -/
structure Request where
  url : String
  method : String
  credentials : String
  body : List (String × String)
deriving DecidableEq, Repr

/-- A `fetch` response: status code, raw headers and the outcome of `response.json()`. -/
structure Response where
  status : Nat
  headers : List (String × String)
  json : Except Err Json

/-- The `ok` flag of a response: the status is in the range 200 to 299. -/
def Response.ok (r : Response) : Bool := decide (200 ≤ r.status ∧ r.status ≤ 299)

/-! ## Collaborators and state -/

/-- The private key record returned by `Keyring.findPrivate()`. -/
structure PrivateKey where
  fingerprint : String
deriving DecidableEq, Repr

/-- Everything `auth.js` calls but does not define. -/
structure Env where
  /-- The l10n function `__`. -/
  l10n : String → String
  /-- The result of `User.getInstance().settings.getDomain()`. -/
  domain : String
  /-- The result of `Keyring.findPrivate()`, `none` for `undefined`. -/
  findPrivate : Option PrivateKey
  /-- The promise of `Keyring.checkPassphrase(passphrase)`. -/
  checkPassphrase : String → Except Err Unit
  /-- The static `Crypto.uuid(seed)`. -/
  uuid : String → String
  /-- The promise of `Crypto.encrypt(message, key)`. -/
  encrypt : String → String → Except Err String
  /-- The promise of `Crypto.decrypt(armored, passphrase)`. -/
  decrypt : String → String → Except Err String
  /-- The promise of the n-th `fetch` call (counted from 0) for a given request. -/
  fetch : Nat → Request → Except Err Response
  /-- The vendor helper `urldecode`. -/
  urldecode : String → Except Err String
  /-- The vendor helper `stripslashes`. -/
  stripslashes : String → String
  /-- The n-th token produced by the random token generator. -/
  random : Nat → String
  /-- The token grammar, a protocol constant. -/
  grammar : String → Bool
  /-- The error carried by a header set that holds the error-indicator header. -/
  serverError : List (String × String) → Option Err

/-- The `Auth` instance field `_verifyToken` and the log of effects. -/
structure State where
  _verifyToken : Option String
  /-- Transport calls so far, oldest first. -/
  requests : List Request
  /-- Arguments `(message, key)` of the `Crypto.encrypt` calls so far, oldest first. -/
  encryptCalls : List (String × String)
  /-- Arguments `(armored, passphrase)` of the `Crypto.decrypt` calls so far, oldest first. -/
  decryptCalls : List (String × String)
  /-- Number of tokens generated so far. -/
  generated : Nat
deriving DecidableEq, Repr

/-- A fresh `Auth` instance before any call. -/
def State.init : State := ⟨none, [], [], [], 0⟩

/-- A call of `fetch(url, init)`. -/
def fetch (env : Env) (req : Request) (st : State) : Except Err Response × State :=
  (env.fetch st.requests.length req, { st with requests := st.requests ++ [req] })

/-- A call of `crypto.encrypt(message, key)`. -/
def encrypt (env : Env) (message key : String) (st : State) : Except Err String × State :=
  (env.encrypt message key, { st with encryptCalls := st.encryptCalls ++ [(message, key)] })

/-- A call of `crypto.decrypt(armored, passphrase)`. -/
def decrypt (env : Env) (armored passphrase : String) (st : State) :
    Except Err String × State :=
  (env.decrypt armored passphrase,
    { st with decryptCalls := st.decryptCalls ++ [(armored, passphrase)] })

/-! ## Token and header validator -/

/-- The error of a token that does not match the grammar. -/
def MalformedToken : Err := ⟨"MalformedToken", "The token does not match the token grammar."⟩

/-- The error of a required protocol header that is absent. -/
def MissingProtocolHeader (stage name : String) : Err :=
  ⟨"MissingProtocolHeader", stage ++ " " ++ name⟩

/-- Modelled from the spec: the constructor `GpgAuthToken` of `gpgAuthToken.js`, which is not
among the sources. Called without an argument (an `undefined` argument, here `none`) it is the
spec's `Token.generate`; called with a string it is `Token.parse`: the token is the string
itself when it matches the grammar, and the construction fails with `MalformedToken`
otherwise. The result is the `token` field of the constructed object. -/
def GpgAuthToken (env : Env) (token : Option String) (st : State) : Except Err String × State :=
  match token with
  | none => (.ok (env.random st.generated), { st with generated := st.generated + 1 })
  | some raw => if env.grammar raw then (.ok raw, st) else (.error MalformedToken, st)

/-- Lower-cases a header name. -/
def lowerName (name : String) : String := String.mk (name.data.map Char.toLower)

/-- Modelled from the spec: `HeaderValidator.requiredHeaders` of `gpgAuthHeader.js`, which is
not among the sources: `verify` requires the verify-response header, `stage1` the
user-auth-token header and `complete` the referrer header, under the names `auth.js` reads. -/
def requiredHeaders (stage : String) : List String :=
  if stage = "verify" then ["x-gpgauth-verify-response"]
  else if stage = "stage1" then ["x-gpgauth-user-auth-token"]
  else if stage = "complete" then ["x-gpgauth-refer"]
  else []

/-- Modelled from the spec: the constructor `GpgAuthHeader` of `gpgAuthHeader.js`
(`HeaderValidator.parse`), which is not among the sources. Header names are lower-cased; a
header set carrying the error indicator fails with the server-supplied error; otherwise the
first absent required header fails with `MissingProtocolHeader`; on success the result is the
`headers` field, the mapping from lower-cased name to raw value. -/
def GpgAuthHeader (env : Env) (headers : List (String × String)) (stage : String) :
    Except Err (List (String × String)) :=
  let normalized := headers.map (fun h => (lowerName h.1, h.2))
  match env.serverError normalized with
  | some e => .error e
  | none =>
    match (requiredHeaders stage).find? (fun name => (normalized.lookup name).isNone) with
    | some name => .error (MissingProtocolHeader stage name)
    | none => .ok normalized

/-! ## Transport escaping of the user auth token -/

/-- The upper-case hexadecimal digit of a number below 16. -/
def hexDigit (n : Nat) : Char :=
  if n < 10 then Char.ofNat (48 + n) else Char.ofNat (55 + n)

/-- The value of a hexadecimal digit, of either case. -/
def hexValue (c : Char) : Option Nat :=
  if '0' ≤ c ∧ c ≤ '9' then some (c.toNat - 48)
  else if 'A' ≤ c ∧ c ≤ 'F' then some (c.toNat - 55)
  else if 'a' ≤ c ∧ c ≤ 'f' then some (c.toNat - 87)
  else none

/-- Modelled from the spec: the URL-encoding the server applies to the encrypted token (server
code, not among the sources), on single-byte characters: letters, digits, `-`, `_` and `.`
stand for themselves, a space becomes `+`, any other character becomes `%` and the two
hexadecimal digits of its code. -/
def urlEncode : List Char → List Char
  | [] => []
  | c :: rest =>
    if c.isAlphanum || c = '-' || c = '_' || c = '.' then c :: urlEncode rest
    else if c = ' ' then '+' :: urlEncode rest
    else '%' :: hexDigit (c.toNat / 16) :: hexDigit (c.toNat % 16) :: urlEncode rest

/-- Modelled from the spec: the backslash-escaping the server applies after the URL-encoding
(server code, not among the sources): a backslash is put before each backslash, single quote
and double quote, and the NUL character becomes a backslash and `0`. -/
def backslashEscape : List Char → List Char
  | [] => []
  | c :: rest =>
    if c = '\\' || c = '\'' || c = '"' then '\\' :: c :: backslashEscape rest
    else if c = Char.ofNat 0 then '\\' :: '0' :: backslashEscape rest
    else c :: backslashEscape rest

/-- Modelled from the spec: the vendor helper `urldecode`, which is not among the sources, on
single-byte characters: `+` is a space, `%` followed by two hexadecimal digits is the character
with that code, and every other character (a `%` without two hexadecimal digits included)
stands for itself. -/
def urldecode : List Char → List Char
  | [] => []
  | '%' :: a :: b :: rest =>
    match hexValue a, hexValue b with
    | some x, some y => Char.ofNat (16 * x + y) :: urldecode rest
    | _, _ => '%' :: urldecode (a :: b :: rest)
  | c :: rest => (if c = '+' then ' ' else c) :: urldecode rest

/-- Modelled from the spec: the vendor helper `stripslashes`, which is not among the sources: a
backslash is dropped and the character after it is kept as it is (`0` after a backslash is
the NUL character); a backslash that ends the string is dropped. -/
def stripslashes : List Char → List Char
  | [] => []
  | ['\\'] => []
  | '\\' :: c :: rest => (if c = '0' then Char.ofNat 0 else c) :: stripslashes rest
  | c :: rest => c :: stripslashes rest

/-! ## `Auth` -/

/-- The field `URL_VERIFY` set by the constructor. -/
def URL_VERIFY : String := "/auth/verify.json?api-version=v1"

/-- The field `URL_LOGIN` set by the constructor. -/
def URL_LOGIN : String := "/auth/login.json?api-version=v1"

namespace Auth

/-- `Auth.prototype.__generateVerifyToken`: builds a new token, stores it in `_verifyToken`
and returns it. -/
def __generateVerifyToken (env : Env) (st : State) : Except Err String × State :=
  match GpgAuthToken env none st with
  | (.ok t, st) => (.ok t, { st with _verifyToken := some t })
  | (.error e, st) => (.error e, st)

/-- The second `then` callback of `verify`, `function(response)`, run on the response of the
verify request; `p` is the state of the promise `verify` returns. When the response is not ok,
the callback attached to `response.json()` settles `p` only where it calls `reject`: an
exception inside it, or a rejection of `response.json()` (no rejection handler is attached),
leaves `p` as it is. When the response is ok, an exception raised by the header or token
constructor reaches the final `catch`, which rejects `p`. -/
def verifyOnResponse (env : Env) (response : Response) (st : State) (p : Outcome String) :
    Outcome String × State :=
  if !response.ok then
    match response.json with
    | .ok json =>
      match json.prop "header" with
      | .error _ => (p, st)
      | .ok (some header) =>
        match header.prop "message" with
        | .error _ => (p, st)
        | .ok message => (p.reject (Err.new (errorMessageOf message)), st)
      | .ok none =>
        let error_msg :=
          env.l10n "Server request failed without providing additional information."
            ++ " (" ++ toString response.status ++ ")"
        (p.reject (Err.new error_msg), st)
    | .error _ => (p, st)
  else
    match GpgAuthHeader env response.headers "verify" with
    | .error e => (p.reject e, st)
    | .ok auth =>
      match GpgAuthToken env (auth.lookup "x-gpgauth-verify-response") st with
      | (.error e, st) => (p.reject e, st)
      | (.ok verify, st) =>
        if some verify ≠ st._verifyToken then
          (p.reject (Err.new (env.l10n
            "The server was unable to prove it can use the advertised OpenPGP key.")), st)
        else
          (p.resolve (env.l10n
            "The server key is verified. The server can use it to sign and decrypt content."), st)

/-- `Auth.prototype.verify(serverUrl, serverKey, userFingerprint)`; `none` is an `undefined`
argument. An exception in the executor (no private key to read the fingerprint from) rejects
the promise. When encryption fails the error handler rejects the promise and returns
`undefined`, so the next callback reads `ok` from `undefined`; the `TypeError` reaches the
final `catch`, whose `reject` finds the promise already settled. -/
def verify (env : Env) (serverUrl serverKey userFingerprint : Option String) (st : State) :
    Outcome String × State :=
  let serverKey :=
    match serverKey with
    | none => env.uuid env.domain
    | some key => key
  let serverUrl :=
    match serverUrl with
    | none => env.domain
    | some url => url
  let userFingerprint :=
    match userFingerprint with
    | none => env.findPrivate.map (fun privateKey => privateKey.fingerprint)
    | some fingerprint => some fingerprint
  match userFingerprint with
  | none => (.rejected (typeError "Cannot read property fingerprint of undefined"), st)
  | some userFingerprint =>
    match __generateVerifyToken env st with
    | (.error e, st) => (.rejected e, st)
    | (.ok token, st) =>
      match encrypt env token serverKey st with
      | (.ok encrypted, st) =>
        let data := [("data[gpg_auth][keyid]", userFingerprint),
          ("data[gpg_auth][server_verify_token]", encrypted)]
        match fetch env ⟨serverUrl ++ URL_VERIFY, "POST", "include", data⟩ st with
        | (.ok response, st) => verifyOnResponse env response st .pending
        | (.error error, st) => (Outcome.pending.reject error, st)
      | (.error error, st) =>
        let p := Outcome.pending.reject
          (Err.new (env.l10n "Unable to encrypt the verify token." ++ " " ++ error.message))
        (p.reject (typeError "Cannot read property ok of undefined"), st)

/-- `Auth.prototype.onResponseError(response)`: the promise it returns. Both handlers attached
to `response.json()` throw, and an exception raised while reading `json.header` or
`json.header.message` rejects the promise with that exception. -/
def onResponseError (env : Env) (response : Response) : Except Err String :=
  let error_msg :=
    env.l10n "There was a server error. No additional information provided"
      ++ " (" ++ toString response.status ++ ")"
  match response.json with
  | .ok json =>
    match json.prop "header" with
    | .error e => .error e
    | .ok (some header) =>
      match header.prop "message" with
      | .error e => .error e
      | .ok message => .error (Err.new (errorMessageOf message))
    | .ok none => .error (Err.new error_msg)
  | .error _ => .error (Err.new error_msg)

/-- `Auth.prototype.stage1(passphrase)`, an async function: the promise it returns. -/
def stage1 (env : Env) (passphrase : String) (st : State) : Except Err String × State :=
  match env.findPrivate with
  | none => (.error (typeError "Cannot read property fingerprint of undefined"), st)
  | some privateKey =>
    let body := [("data[gpg_auth][keyid]", privateKey.fingerprint)]
    let url := env.domain ++ URL_LOGIN
    match fetch env ⟨url, "POST", "include", body⟩ st with
    | (.error e, st) => (.error e, st)
    | (.ok response, st) =>
      if !response.ok then
        (onResponseError env response, st)
      else
        match GpgAuthHeader env response.headers "stage1" with
        | .error e => (.error e, st)
        | .ok auth =>
          match env.urldecode (jsStr (auth.lookup "x-gpgauth-user-auth-token")) with
          | .error e => (.error e, st)
          | .ok decoded =>
            let encryptedUserAuthToken := env.stripslashes decoded
            match decrypt env encryptedUserAuthToken passphrase st with
            | (.error e, st) => (.error e, st)
            | (.ok userAuthToken, st) =>
              match GpgAuthToken env (some userAuthToken) st with
              | (.error e, st) => (.error e, st)
              | (.ok token, st) => (.ok token, st)

/-- `Auth.prototype.stage2(userAuthToken)`. An exception in the executor rejects the promise;
a rejected `fetch`, the rejected promise returned by `onResponseError` and an exception of the
header constructor all reach the final `catch`, which rejects it. -/
def stage2 (env : Env) (userAuthToken : String) (st : State) : Outcome String × State :=
  match env.findPrivate with
  | none => (.rejected (typeError "Cannot read property fingerprint of undefined"), st)
  | some privateKey =>
    let data := [("data[gpg_auth][keyid]", privateKey.fingerprint),
      ("data[gpg_auth][user_token_result]", userAuthToken)]
    match fetch env ⟨env.domain ++ URL_LOGIN, "POST", "include", data⟩ st with
    | (.error error, st) => (Outcome.pending.reject error, st)
    | (.ok response, st) =>
      if !response.ok then
        match onResponseError env response with
        | .error error => (Outcome.pending.reject error, st)
        | .ok _ => (.pending, st)
      else
        match GpgAuthHeader env response.headers "complete" with
        | .error error => (Outcome.pending.reject error, st)
        | .ok auth =>
          let referrer := env.domain ++ jsStr (auth.lookup "x-gpgauth-refer")
          (Outcome.pending.resolve referrer, st)

/-- `Auth.prototype.login(passphrase)`, an async function: each `await` of a rejected promise
rejects the promise of `login`. -/
def login (env : Env) (passphrase : String) (st : State) : Outcome String × State :=
  match env.checkPassphrase passphrase with
  | .error e => (.rejected e, st)
  | .ok _ =>
    match stage1 env passphrase st with
    | (.error e, st) => (.rejected e, st)
    | (.ok userAuthToken, st) => stage2 env userAuthToken st

end Auth

/-! ## Sample collaborators -/

/-- Modelled from the spec: the token grammar, `gpgauth:` followed by 36 alphanumeric
characters and `:gpgauth`. -/
def tokenGrammar (s : String) : Bool :=
  s.data.take 8 == "gpgauth:".data
    && ((s.data.drop 8).take 36).all Char.isAlphanum
    && s.data.drop 44 == ":gpgauth".data

/-- A token of the grammar. -/
def tokenA : String := "gpgauth:0123456789abcdefghijABCDEFGHIJ012345:gpgauth"

/-- Another token of the grammar. -/
def tokenB : String := "gpgauth:zzzzzzzzzzzzzzzzzzzzzzzzzzzzzzzzzzzz:gpgauth"

/-- The error of a passphrase that does not unlock the private key. -/
def InvalidPassphrase : Err := ⟨"InvalidPassphrase", "This is not a valid passphrase"⟩

/-- Collaborators of a configured client: the domain is `https://passbolt.example`, the key
has fingerprint `FPR`, only the passphrase `secret` unlocks it, `encrypt` and `decrypt` mark
their argument, the generator yields `tokenA`, and the n-th transport call is answered by
`responses n`. -/
def sampleEnv (responses : Nat → Except Err Response) : Env where
  l10n := id
  domain := "https://passbolt.example"
  findPrivate := some ⟨"FPR"⟩
  checkPassphrase := fun passphrase =>
    if passphrase = "secret" then .ok () else .error InvalidPassphrase
  uuid := fun seed => "uuid-of-" ++ seed
  encrypt := fun message _ => .ok ("encrypted-" ++ message)
  decrypt := fun armored _ => .ok armored
  fetch := fun n _ => responses n
  urldecode := fun s => .ok (String.mk (urldecode s.data))
  stripslashes := fun s => String.mk (stripslashes s.data)
  random := fun _ => tokenA
  grammar := tokenGrammar
  serverError := fun _ => none

/-- An ok response to the verify request that echoes `token`. -/
def verifyResponse (token : String) : Response :=
  ⟨200, [("X-GPGAuth-Verify-Response", token)], .ok .null⟩

/-- Responses of a login run: an ok stage 1 response carrying `tokenB`, then an ok stage 2
response with the referrer `/app`. -/
def loginResponses (n : Nat) : Except Err Response :=
  if n = 0 then .ok ⟨200, [("X-GPGAuth-User-Auth-Token", tokenB)], .ok .null⟩
  else .ok ⟨200, [("X-GPGAuth-Refer", "/app")], .ok .null⟩

/-- The header value the server sends for the encrypted token `c`: URL-encoded, then
backslash-escaped. -/
def transportEscape (c : String) : String := String.mk (backslashEscape (urlEncode c.data))

/-- An ok stage 1 response whose user-auth-token header carries `value`. -/
def stage1Response (value : String) : Response :=
  ⟨200, [("X-GPGAuth-User-Auth-Token", value)], .ok .null⟩

/-- The rejection of `response.json()` on a body that is not JSON. -/
def SyntaxError : Err := ⟨"SyntaxError", "Unexpected token < in JSON at position 0"⟩

/-- A response with status 500 and the given outcome of `response.json()`. -/
def errorResponse (json : Except Err Json) : Response := ⟨500, [], json⟩

/-- The body of an error response with a structured message. -/
def invalidKeyBody : Json := .obj [("header", .obj [("message", .str "Invalid key")])]

/-- The characters the URL-encoding produces: none of them is touched by the backslash
escape or by `stripslashes`. -/
def urlSafe (c : Char) : Bool :=
  c.isAlphanum || c = '-' || c = '_' || c = '.' || c = '+' || c = '%'

/-! ## `Auth.getServerKey` -/

namespace Auth

/-- `Auth.prototype.__statusCheck(response)`: throws when the response is not ok, returns
`true` otherwise. -/
def __statusCheck (env : Env) (response : Response) : Except Err Bool :=
  if !response.ok then
    let msg := env.l10n "There was a problem when trying to communicate with the server"
      ++ " (HTTP Code:" ++ toString response.status ++ ")"
    .error (Err.new msg)
  else
    .ok true

/-- `Auth.prototype.getServerKey(domain)`; `none` is an `undefined` argument. The first `then`
callback throws what `__statusCheck` throws and otherwise returns `response.json()`. The second
`then` has two handlers: `success` resolves with `json.body` (an exception while reading it
reaches the final `catch`, which rejects), and `error`, which runs on a rejected `fetch`, on
an exception of the first callback and on a rejected `response.json()`, rejects with its own
message. The request has no body. -/
def getServerKey (env : Env) (domain : Option String) (st : State) :
    Outcome (Option Json) × State :=
  let domain :=
    match domain with
    | none => env.domain
    | some d => d
  match fetch env ⟨domain ++ URL_VERIFY, "GET", "include", []⟩ st with
  | (fetched, st) =>
    let parsed : Except Err Json :=
      match fetched with
      | .error e => .error e
      | .ok response =>
        match __statusCheck env response with
        | .error e => .error e
        | .ok _ => response.json
    match parsed with
    | .ok json =>
      match json.prop "body" with
      | .ok body => (Outcome.pending.resolve body, st)
      | .error e => (Outcome.pending.reject e, st)
    | .error _ =>
      (Outcome.pending.reject (Err.new (env.l10n
        "There was a problem trying to understand the data provided by the server")), st)

end Auth

/-! ## `PageMod` tab tracking (`chrome/lib/sdk/page-mod.js`) -/

/-- The method `indexOf` of a JavaScript array of tab ids: the index of the first element
strictly equal to `x`, or `-1`. -/
def indexOf (xs : List Int) (x : Int) : Int :=
  match xs with
  | [] => -1
  | y :: rest =>
    if y = x then 0
    else if indexOf rest x = -1 then -1 else indexOf rest x + 1

/-- The method `splice(start, deleteCount)` of a JavaScript array, without inserted items;
the result is the array after the call. A negative `start` counts from the end of the array
(`max (len + start) 0`), any other is capped at the length, and the number of removed
elements is `deleteCount` clamped between 0 and what is left after the start. -/
def splice (xs : List Int) (start deleteCount : Int) : List Int :=
  let len : Int := xs.length
  let actualStart := if start < 0 then max (len + start) 0 else min start len
  let actualDeleteCount := min (max deleteCount 0) (len - actualStart)
  xs.take actualStart.toNat ++ xs.drop (actualStart + actualDeleteCount).toNat

/-- The port handed to the `chrome.runtime.onConnect` listener: its name and the id of the
tab of its sender. -/
structure Port where
  name : String
  senderTabId : Int
deriving DecidableEq, Repr

namespace PageMod

/-- The listener `chrome.tabs.onRemoved` registered by `PageMod.prototype.__init`, as a
function of the field `_tabs` before the call to its value after the call. -/
def onRemoved (_tabs : List Int) (tabId : Int) : List Int :=
  let index := indexOf _tabs tabId
  splice _tabs index 1

/-- The listener `chrome.runtime.onConnect` registered by
`PageMod.prototype.__initConnectListener(portName, tabId)`, on the field `_tabs`; `none` is an
`undefined` `tabId`. -/
def onConnect (portName : String) (tabId : Option Int) (_tabs : List Int) (port : Port) :
    List Int :=
  if port.name = portName then
    if tabId = none ∨ tabId = some port.senderTabId then
      _tabs ++ [port.senderTabId]
    else _tabs
  else _tabs

end PageMod

/-! ## `PassboltAuth` (`lib/pagemod/passboltAuthPagemod.js`) -/

/-- The `include` option of a page-mod: a url, or a regular expression given by the pattern
handed to `new RegExp`. -/
inductive Include where
  | url (value : String)
  | regExp (pattern : String)
deriving DecidableEq, Repr

/-- The page-mod built by `pageMod.PageMod(options)` in `PassboltAuth.init`, by the options
that vary: `include` (here `includePattern`) and the `id`, `ready` and `domain` of
`contentScriptOptions`. -/
structure AuthPageMod where
  includePattern : Include
  id : Nat
  ready : Bool
  domain : Include
deriving DecidableEq, Repr

/-- The static fields of `PassboltAuth` (`none` is `undefined`; the number `id` is taken as a
natural number), with the log of the page-mods created and destroyed so far, oldest first. -/
structure PassboltAuth where
  _pageMod : Option AuthPageMod
  id : Nat
  current : Option Bool
  created : List AuthPageMod
  destroyed : List AuthPageMod
deriving DecidableEq, Repr

namespace PassboltAuth

/-- The fields as the module sets them when it is loaded. -/
def initial : PassboltAuth := ⟨none, 0, none, [], []⟩

/-- `PassboltAuth.init()`: `isValid` is the answer of `user.isValid()` and `settingsDomain`
that of `user.settings.getDomain()`. The result is the returned boolean and the fields after
the call. -/
def init (isValid : Bool) (settingsDomain : String) (s : PassboltAuth) :
    Bool × PassboltAuth :=
  let (domain, ready) : Include × Bool :=
    if isValid then (.url (settingsDomain ++ "/auth/login"), true)
    else (.regExp "(.*)/auth/login", false)
  if some ready ≠ s.current then
    let id := s.id + 1
    let destroyed :=
      match s._pageMod with
      | some previous => s.destroyed ++ [previous]
      | none => s.destroyed
    let created : AuthPageMod := ⟨domain, id, ready, domain⟩
    (true, ⟨some created, id, some ready, s.created ++ [created], destroyed⟩)
  else
    (false, s)

/-- `PassboltAuth.get()`: runs `init` and returns the field `_pageMod`. -/
def get (isValid : Bool) (settingsDomain : String) (s : PassboltAuth) :
    Option AuthPageMod × PassboltAuth :=
  ((init isValid settingsDomain s).2._pageMod, (init isValid settingsDomain s).2)

/-- A sequence of calls of `init`, one per pair of answers of `user.isValid()` and
`user.settings.getDomain()`. -/
def initAll (s : PassboltAuth) : List (Bool × String) → PassboltAuth
  | [] => s
  | call :: rest => initAll (init call.1 call.2 s).2 rest

end PassboltAuth

/-! ## More sample collaborators -/

/-- The error of an encryption for which no public key is found. -/
def encryptError : Err := ⟨"Error", "The public key could not be found."⟩

/-- The sample collaborators with a `Crypto.encrypt` that fails. -/
def failingEncryptEnv (responses : Nat → Except Err Response) : Env :=
  { sampleEnv responses with encrypt := fun _ _ => .error encryptError }

/-- A short ASCII-armored message, as the server encrypts the user auth token. -/
def armoredSample : String :=
  "-----BEGIN PGP MESSAGE-----\n\nhQEMA4/b+c=\n=dQw4\n-----END PGP MESSAGE-----\n"

/-- The collaborators `env` with a transport that answers every call with a response of the
given status, headers and outcome of `response.json()`. -/
def answering (env : Env) (status : Nat) (headers : List (String × String))
    (json : Except Err Json) : Env :=
  { env with fetch := fun _ _ => .ok ⟨status, headers, json⟩ }

end Passbolt

/-! ## Theorems -/

namespace Passbolt

/-- A header set accepted for a stage holds every header the stage requires. -/
theorem GpgAuthHeader_required (env : Env) (headers auth : List (String × String))
    (stage name : String) (h : GpgAuthHeader env headers stage = .ok auth)
    (hname : name ∈ requiredHeaders stage) : ∃ value, auth.lookup name = some value := by
  unfold GpgAuthHeader at h
  simp only [] at h
  split at h
  · cases h
  · split at h
    · cases h
    · rename_i hfind
      injection h with h
      subst h
      rw [List.find?_eq_none] at hfind
      have hsome := hfind name hname
      cases hl : List.lookup name (List.map (fun h => (lowerName h.1, h.2)) headers) with
      | none => simp [hl] at hsome
      | some value => exact ⟨value, rfl⟩

/-- The verify-response header of a header set accepted for the stage `verify`. -/
theorem GpgAuthHeader_verify (env : Env) (headers auth : List (String × String))
    (h : GpgAuthHeader env headers "verify" = .ok auth) :
    ∃ value, auth.lookup "x-gpgauth-verify-response" = some value :=
  GpgAuthHeader_required env headers auth "verify" _ h (by simp [requiredHeaders])

/-- The callback of `verify` resolves the promise only on an ok response whose validated
verify-response header is a grammar-valid token equal to `_verifyToken`. -/
theorem verifyOnResponse_resolved (env : Env) (response : Response) (st : State) (msg : String)
    (h : (Auth.verifyOnResponse env response st .pending).1 = .resolved msg) :
    response.ok = true ∧ ∃ auth token,
      GpgAuthHeader env response.headers "verify" = .ok auth ∧
      auth.lookup "x-gpgauth-verify-response" = some token ∧
      env.grammar token = true ∧ some token = st._verifyToken := by
  unfold Auth.verifyOnResponse at h
  split at h
  · exfalso
    split at h
    · split at h
      · cases h
      · split at h <;> cases h
      · cases h
    · cases h
  · rename_i hok
    refine ⟨by simpa using hok, ?_⟩
    split at h
    · cases h
    · rename_i auth hauth
      obtain ⟨token, htoken⟩ := GpgAuthHeader_verify env _ _ hauth
      refine ⟨auth, token, hauth, htoken, ?_⟩
      rw [htoken] at h
      unfold GpgAuthToken at h
      by_cases hg : env.grammar token = true
      · simp only [hg, if_true] at h
        refine ⟨hg, ?_⟩
        by_contra hne
        simp [hne, Outcome.reject] at h
      · simp [hg, Outcome.reject] at h

/-- Without a `userFingerprint` argument and without a private key the executor of `verify`
throws, which rejects the promise before anything is sent. -/
theorem verify_no_fingerprint (env : Env) (serverUrl serverKey : Option String) (st : State)
    (h : env.findPrivate = none) :
    Auth.verify env serverUrl serverKey none st =
      (.rejected (typeError "Cannot read property fingerprint of undefined"), st) := by
  simp [Auth.verify, h]

/-- Without a `userFingerprint` argument `verify` runs with the fingerprint of the private
key. -/
theorem verify_default_fingerprint (env : Env) (serverUrl serverKey : Option String)
    (st : State) (privateKey : PrivateKey) (h : env.findPrivate = some privateKey) :
    Auth.verify env serverUrl serverKey none st =
      Auth.verify env serverUrl serverKey (some privateKey.fingerprint) st := by
  unfold Auth.verify
  simp only [h, Option.map]

/-- The promise chain of `verify`, once the keyid is known. -/
theorem verify_unfold (env : Env) (serverUrl serverKey : Option String)
    (st : State) (fingerprint : String) :
    Auth.verify env serverUrl serverKey (some fingerprint) st =
      match env.encrypt (env.random st.generated) (serverKey.getD (env.uuid env.domain)) with
      | .ok encrypted =>
        match env.fetch st.requests.length ⟨serverUrl.getD env.domain ++ URL_VERIFY, "POST",
          "include", [("data[gpg_auth][keyid]", fingerprint),
            ("data[gpg_auth][server_verify_token]", encrypted)]⟩ with
        | .ok response =>
          Auth.verifyOnResponse env response
            ⟨some (env.random st.generated),
              st.requests ++ [⟨serverUrl.getD env.domain ++ URL_VERIFY, "POST", "include",
                [("data[gpg_auth][keyid]", fingerprint),
                  ("data[gpg_auth][server_verify_token]", encrypted)]⟩],
              st.encryptCalls ++
                [(env.random st.generated, serverKey.getD (env.uuid env.domain))],
              st.decryptCalls, st.generated + 1⟩ .pending
        | .error error =>
          (.rejected error,
            ⟨some (env.random st.generated),
              st.requests ++ [⟨serverUrl.getD env.domain ++ URL_VERIFY, "POST", "include",
                [("data[gpg_auth][keyid]", fingerprint),
                  ("data[gpg_auth][server_verify_token]", encrypted)]⟩],
              st.encryptCalls ++
                [(env.random st.generated, serverKey.getD (env.uuid env.domain))],
              st.decryptCalls, st.generated + 1⟩)
      | .error error =>
        (.rejected (Err.new
            (env.l10n "Unable to encrypt the verify token." ++ " " ++ error.message)),
          ⟨some (env.random st.generated), st.requests,
            st.encryptCalls ++
              [(env.random st.generated, serverKey.getD (env.uuid env.domain))],
            st.decryptCalls, st.generated + 1⟩) := by
  have hkey : (match serverKey with
      | none => env.uuid env.domain
      | some key => key) = serverKey.getD (env.uuid env.domain) := by
    cases serverKey <;> rfl
  have hurl : (match serverUrl with
      | none => env.domain
      | some url => url) = serverUrl.getD env.domain := by
    cases serverUrl <;> rfl
  unfold Auth.verify
  simp only [hkey, hurl, Auth.__generateVerifyToken, GpgAuthToken, encrypt, fetch]
  cases env.encrypt (env.random st.generated) (serverKey.getD (env.uuid env.domain)) with
  | error e => rfl
  | ok encrypted =>
    simp only []
    cases env.fetch st.requests.length ⟨serverUrl.getD env.domain ++ URL_VERIFY, "POST",
          "include", [("data[gpg_auth][keyid]", fingerprint),
            ("data[gpg_auth][server_verify_token]", encrypted)]⟩ with
    | error e => rfl
    | ok response => rfl


/-- A successful lookup finds an entry of the list under that key. -/
theorem lookup_some_mem (l : List (String × String)) (key value : String)
    (h : l.lookup key = some value) : ∃ p ∈ l, p.1 = key := by
  induction l with
  | nil => simp [List.lookup] at h
  | cons p rest ih =>
    obtain ⟨k, v⟩ := p
    by_cases hk : key = k
    · exact ⟨(k, v), List.mem_cons_self _ _, hk.symm⟩
    · have hbeq : (key == k) = false := by simpa using hk
      simp only [List.lookup, hbeq] at h
      obtain ⟨p, hp, hp1⟩ := ih h
      exact ⟨p, List.mem_cons_of_mem _ hp, hp1⟩

/-- An accepted header set is the lower-cased raw header set. -/
theorem GpgAuthHeader_ok (env : Env) (headers auth : List (String × String)) (stage : String)
    (h : GpgAuthHeader env headers stage = .ok auth) :
    auth = headers.map (fun h => (lowerName h.1, h.2)) := by
  unfold GpgAuthHeader at h
  simp only [] at h
  split at h
  · cases h
  · split at h
    · cases h
    · injection h with h
      exact h.symm

/-- C1: on an ok response whose headers pass the `verify` header validation and whose
`x-gpgauth-verify-response` value `e` matches the token grammar, `verify` resolves with the
confirmation message when `e` equals the pending verify token `t` generated by this call,
and rejects with the "unable to prove" error when `e` differs from `t`. -/
theorem verify_echoed_token (env : Env) (serverUrl serverKey userFingerprint : Option String)
    (st : State) (encrypted : String) (response : Response) (auth : List (String × String))
    (t e : String)
    (hfp : userFingerprint.isSome ∨ env.findPrivate.isSome)
    (ht : env.random st.generated = t)
    (henc : env.encrypt t (serverKey.getD (env.uuid env.domain)) = .ok encrypted)
    (hfetch : ∀ req, env.fetch st.requests.length req = .ok response)
    (hok : response.ok = true)
    (hauth : GpgAuthHeader env response.headers "verify" = .ok auth)
    (he : auth.lookup "x-gpgauth-verify-response" = some e)
    (hgrammar : env.grammar e = true) :
    (Auth.verify env serverUrl serverKey userFingerprint st).2._verifyToken = some t ∧
    (e = t → (Auth.verify env serverUrl serverKey userFingerprint st).1 =
      .resolved (env.l10n
        "The server key is verified. The server can use it to sign and decrypt content.")) ∧
    (e ≠ t → (Auth.verify env serverUrl serverKey userFingerprint st).1 =
      .rejected (Err.new (env.l10n
        "The server was unable to prove it can use the advertised OpenPGP key."))) := by
  have hchain : ∀ fingerprint : String,
      (Auth.verify env serverUrl serverKey (some fingerprint) st).2._verifyToken = some t ∧
      (e = t → (Auth.verify env serverUrl serverKey (some fingerprint) st).1 =
        .resolved (env.l10n
          "The server key is verified. The server can use it to sign and decrypt content.")) ∧
      (e ≠ t → (Auth.verify env serverUrl serverKey (some fingerprint) st).1 =
        .rejected (Err.new (env.l10n
          "The server was unable to prove it can use the advertised OpenPGP key."))) := by
    intro fingerprint
    rw [verify_unfold, ht, henc]
    simp only [hfetch]
    unfold Auth.verifyOnResponse
    simp only [hok, hauth, he, GpgAuthToken, hgrammar, Bool.not_true, Bool.false_eq_true,
      if_false, if_true]
    by_cases heq : e = t
    · subst heq
      simp [Outcome.resolve]
    · simp [heq, Outcome.reject]
  cases userFingerprint with
  | some fingerprint => exact hchain fingerprint
  | none =>
    cases hkey : env.findPrivate with
    | none => simp [hkey] at hfp
    | some privateKey =>
      rw [verify_default_fingerprint env serverUrl serverKey st privateKey hkey]
      exact hchain privateKey.fingerprint

/-- C1 at sample inputs: the server echoes the generated token `tokenA`, or the other
grammar-valid token `tokenB`. -/
theorem verify_echoed_token_witness :
    (Auth.verify (sampleEnv fun _ => .ok (verifyResponse tokenA)) none none none State.init).1 =
      .resolved "The server key is verified. The server can use it to sign and decrypt content."
    ∧ (Auth.verify (sampleEnv fun _ => .ok (verifyResponse tokenB)) none none none State.init).1 =
      .rejected (Err.new "The server was unable to prove it can use the advertised OpenPGP key.") :=
  ⟨(verify_echoed_token (sampleEnv fun _ => .ok (verifyResponse tokenA)) none none none State.init
      ("encrypted-" ++ tokenA) (verifyResponse tokenA) [("x-gpgauth-verify-response", tokenA)]
      tokenA tokenA (by decide) rfl rfl (fun _ => rfl) (by decide) rfl (by decide)
      (by decide)).2.1 rfl,
    (verify_echoed_token (sampleEnv fun _ => .ok (verifyResponse tokenB)) none none none State.init
      ("encrypted-" ++ tokenA) (verifyResponse tokenB) [("x-gpgauth-verify-response", tokenB)]
      tokenA tokenB (by decide) rfl rfl (fun _ => rfl) (by decide) rfl (by decide)
      (by decide)).2.2 (by decide)⟩

/-- C2: `verify` fails closed. If it resolves, then the token generated by this call was
encrypted, the response to the verify request was ok, its headers passed the `verify` header
validation, and the verify-response header holds a grammar-valid token equal to the generated
one. In particular `verify` does not resolve on a response that is not ok, nor on a response
without a verify-response header. -/
theorem verify_fails_closed (env : Env) (serverUrl serverKey userFingerprint : Option String)
    (st : State) :
    (∀ msg, (Auth.verify env serverUrl serverKey userFingerprint st).1 = .resolved msg →
      ∃ fingerprint encrypted response auth,
        env.encrypt (env.random st.generated) (serverKey.getD (env.uuid env.domain))
          = .ok encrypted ∧
        env.fetch st.requests.length ⟨serverUrl.getD env.domain ++ URL_VERIFY, "POST",
          "include", [("data[gpg_auth][keyid]", fingerprint),
            ("data[gpg_auth][server_verify_token]", encrypted)]⟩ = .ok response ∧
        response.ok = true ∧
        GpgAuthHeader env response.headers "verify" = .ok auth ∧
        auth.lookup "x-gpgauth-verify-response" = some (env.random st.generated) ∧
        env.grammar (env.random st.generated) = true) ∧
    (∀ response, (∀ req, env.fetch st.requests.length req = .ok response) →
      response.ok = false →
      ∀ msg, (Auth.verify env serverUrl serverKey userFingerprint st).1 ≠ .resolved msg) ∧
    (∀ response, (∀ req, env.fetch st.requests.length req = .ok response) →
      (∀ h ∈ response.headers, lowerName h.1 ≠ "x-gpgauth-verify-response") →
      ∀ msg, (Auth.verify env serverUrl serverKey userFingerprint st).1 ≠ .resolved msg) := by
  have hchain : ∀ (fingerprint msg : String),
      (Auth.verify env serverUrl serverKey (some fingerprint) st).1 = .resolved msg →
      ∃ encrypted response auth,
        env.encrypt (env.random st.generated) (serverKey.getD (env.uuid env.domain))
          = .ok encrypted ∧
        env.fetch st.requests.length ⟨serverUrl.getD env.domain ++ URL_VERIFY, "POST",
          "include", [("data[gpg_auth][keyid]", fingerprint),
            ("data[gpg_auth][server_verify_token]", encrypted)]⟩ = .ok response ∧
        response.ok = true ∧
        GpgAuthHeader env response.headers "verify" = .ok auth ∧
        auth.lookup "x-gpgauth-verify-response" = some (env.random st.generated) ∧
        env.grammar (env.random st.generated) = true := by
    intro fingerprint msg h
    rw [verify_unfold] at h
    cases henc : env.encrypt (env.random st.generated)
        (serverKey.getD (env.uuid env.domain)) with
    | error e => simp [henc] at h
    | ok encrypted =>
      simp only [henc] at h
      cases hfetch : env.fetch st.requests.length ⟨serverUrl.getD env.domain ++ URL_VERIFY,
          "POST", "include", [("data[gpg_auth][keyid]", fingerprint),
            ("data[gpg_auth][server_verify_token]", encrypted)]⟩ with
      | error e => simp [hfetch] at h
      | ok response =>
        simp only [hfetch] at h
        obtain ⟨hok, auth, token, hauth, htoken, hgrammar, heq⟩ :=
          verifyOnResponse_resolved env response _ msg h
        simp only [Option.some.injEq] at heq
        subst heq
        exact ⟨encrypted, response, auth, rfl, hfetch, hok, hauth, htoken, hgrammar⟩
  have hmain : ∀ msg,
      (Auth.verify env serverUrl serverKey userFingerprint st).1 = .resolved msg →
      ∃ fingerprint encrypted response auth,
        env.encrypt (env.random st.generated) (serverKey.getD (env.uuid env.domain))
          = .ok encrypted ∧
        env.fetch st.requests.length ⟨serverUrl.getD env.domain ++ URL_VERIFY, "POST",
          "include", [("data[gpg_auth][keyid]", fingerprint),
            ("data[gpg_auth][server_verify_token]", encrypted)]⟩ = .ok response ∧
        response.ok = true ∧
        GpgAuthHeader env response.headers "verify" = .ok auth ∧
        auth.lookup "x-gpgauth-verify-response" = some (env.random st.generated) ∧
        env.grammar (env.random st.generated) = true := by
    intro msg h
    cases userFingerprint with
    | some fingerprint => exact ⟨fingerprint, hchain fingerprint msg h⟩
    | none =>
      cases hkey : env.findPrivate with
      | none => rw [verify_no_fingerprint env serverUrl serverKey st hkey] at h; cases h
      | some privateKey =>
        rw [verify_default_fingerprint env serverUrl serverKey st privateKey hkey] at h
        exact ⟨privateKey.fingerprint, hchain privateKey.fingerprint msg h⟩
  refine ⟨hmain, ?_, ?_⟩
  · intro response hfetch hnot msg h
    obtain ⟨fingerprint, encrypted, response2, auth, -, hfetch2, hok, -⟩ := hmain msg h
    rw [hfetch] at hfetch2
    injection hfetch2 with hresp
    subst hresp
    rw [hnot] at hok
    cases hok
  · intro response hfetch hmissing msg h
    obtain ⟨fingerprint, encrypted, response2, auth, -, hfetch2, -, hauth, hlookup, -⟩ :=
      hmain msg h
    rw [hfetch] at hfetch2
    injection hfetch2 with hresp
    subst hresp
    have hnorm := GpgAuthHeader_ok env _ _ _ hauth
    obtain ⟨p, hp, hp1⟩ := lookup_some_mem auth _ _ hlookup
    rw [hnorm, List.mem_map] at hp
    obtain ⟨raw, hraw, hrawp⟩ := hp
    apply hmissing raw hraw
    rw [← hp1, ← hrawp]

/-- C2 at sample inputs: the run in which the server echoes `tokenA` resolves, and its
response is ok and carries the generated token. -/
theorem verify_fails_closed_witness :
    ∃ fingerprint encrypted response auth,
      (sampleEnv fun _ => .ok (verifyResponse tokenA)).encrypt tokenA
        ("uuid-of-" ++ "https://passbolt.example") = .ok encrypted ∧
      (sampleEnv fun _ => .ok (verifyResponse tokenA)).fetch 0
        ⟨"https://passbolt.example" ++ URL_VERIFY, "POST", "include",
          [("data[gpg_auth][keyid]", fingerprint),
            ("data[gpg_auth][server_verify_token]", encrypted)]⟩ = .ok response ∧
      response.ok = true ∧
      GpgAuthHeader (sampleEnv fun _ => .ok (verifyResponse tokenA)) response.headers "verify"
        = .ok auth ∧
      auth.lookup "x-gpgauth-verify-response" = some tokenA ∧
      tokenGrammar tokenA = true :=
  (verify_fails_closed (sampleEnv fun _ => .ok (verifyResponse tokenA)) none none none
    State.init).1
    "The server key is verified. The server can use it to sign and decrypt content."
    (by decide)


/-- C3: when the keyring rejects the passphrase, `login` fails with that error and leaves the
state as it was: no transport call is made. -/
theorem login_invalid_passphrase (env : Env) (passphrase : String) (st : State) (e : Err)
    (h : env.checkPassphrase passphrase = .error e) :
    (Auth.login env passphrase st).1 = .rejected e ∧
    (Auth.login env passphrase st).2 = st ∧
    (Auth.login env passphrase st).2.requests.length = st.requests.length := by
  unfold Auth.login
  simp [h]

/-- C3 at sample inputs: a wrong passphrase on a fresh instance leaves the transport log
empty. -/
theorem login_invalid_passphrase_witness :
    (Auth.login (sampleEnv fun _ => .ok (verifyResponse tokenA)) "wrong" State.init).1 =
      .rejected InvalidPassphrase ∧
    (Auth.login (sampleEnv fun _ => .ok (verifyResponse tokenA)) "wrong" State.init).2.requests
      = [] :=
  ⟨(login_invalid_passphrase (sampleEnv fun _ => .ok (verifyResponse tokenA)) "wrong"
      State.init InvalidPassphrase rfl).1,
    by
      rw [(login_invalid_passphrase (sampleEnv fun _ => .ok (verifyResponse tokenA)) "wrong"
        State.init InvalidPassphrase rfl).2.1]
      rfl⟩

/-- The promise returned by `onResponseError` is never resolved. -/
theorem onResponseError_ne_ok (env : Env) (response : Response) (value : String) :
    Auth.onResponseError env response ≠ .ok value := by
  unfold Auth.onResponseError
  simp only []
  intro h
  split at h
  · split at h
    · cases h
    · split at h <;> cases h
    · cases h
  · cases h

/-- The steps of `stage1` in terms of the collaborators' answers. -/
theorem stage1_unfold (env : Env) (passphrase : String) (st : State) :
    Auth.stage1 env passphrase st =
      match env.findPrivate with
      | none => (.error (typeError "Cannot read property fingerprint of undefined"), st)
      | some privateKey =>
        match env.fetch st.requests.length ⟨env.domain ++ URL_LOGIN, "POST", "include",
          [("data[gpg_auth][keyid]", privateKey.fingerprint)]⟩ with
        | .error e =>
          (.error e, ⟨st._verifyToken, st.requests ++ [⟨env.domain ++ URL_LOGIN, "POST",
            "include", [("data[gpg_auth][keyid]", privateKey.fingerprint)]⟩],
            st.encryptCalls, st.decryptCalls, st.generated⟩)
        | .ok response =>
          if response.ok = false then
            (Auth.onResponseError env response,
              ⟨st._verifyToken, st.requests ++ [⟨env.domain ++ URL_LOGIN, "POST",
                "include", [("data[gpg_auth][keyid]", privateKey.fingerprint)]⟩],
                st.encryptCalls, st.decryptCalls, st.generated⟩)
          else
            match GpgAuthHeader env response.headers "stage1" with
            | .error e =>
              (.error e, ⟨st._verifyToken, st.requests ++ [⟨env.domain ++ URL_LOGIN, "POST",
                "include", [("data[gpg_auth][keyid]", privateKey.fingerprint)]⟩],
                st.encryptCalls, st.decryptCalls, st.generated⟩)
            | .ok auth =>
              match env.urldecode (jsStr (auth.lookup "x-gpgauth-user-auth-token")) with
              | .error e =>
                (.error e, ⟨st._verifyToken, st.requests ++ [⟨env.domain ++ URL_LOGIN,
                  "POST", "include", [("data[gpg_auth][keyid]", privateKey.fingerprint)]⟩],
                  st.encryptCalls, st.decryptCalls, st.generated⟩)
              | .ok decoded =>
                match env.decrypt (env.stripslashes decoded) passphrase with
                | .error e =>
                  (.error e, ⟨st._verifyToken, st.requests ++ [⟨env.domain ++ URL_LOGIN,
                    "POST", "include", [("data[gpg_auth][keyid]", privateKey.fingerprint)]⟩],
                    st.encryptCalls,
                    st.decryptCalls ++ [(env.stripslashes decoded, passphrase)],
                    st.generated⟩)
                | .ok userAuthToken =>
                  (if env.grammar userAuthToken = true then .ok userAuthToken
                    else .error MalformedToken,
                    ⟨st._verifyToken, st.requests ++ [⟨env.domain ++ URL_LOGIN,
                      "POST", "include", [("data[gpg_auth][keyid]", privateKey.fingerprint)]⟩],
                      st.encryptCalls,
                      st.decryptCalls ++ [(env.stripslashes decoded, passphrase)],
                      st.generated⟩) := by
  unfold Auth.stage1
  cases env.findPrivate with
  | none => rfl
  | some privateKey =>
    simp only [fetch, decrypt, GpgAuthToken]
    cases env.fetch st.requests.length ⟨env.domain ++ URL_LOGIN, "POST", "include",
        [("data[gpg_auth][keyid]", privateKey.fingerprint)]⟩ with
    | error e => rfl
    | ok response =>
      simp only []
      cases hok : response.ok with
      | false => simp
      | true =>
        simp only [Bool.not_true, Bool.false_eq_true, if_false]
        cases GpgAuthHeader env response.headers "stage1" with
        | error e => rfl
        | ok auth =>
          simp only []
          cases env.urldecode (jsStr (auth.lookup "x-gpgauth-user-auth-token")) with
          | error e => rfl
          | ok decoded =>
            simp only []
            cases env.decrypt (env.stripslashes decoded) passphrase with
            | error e => rfl
            | ok userAuthToken =>
              simp only []
              cases env.grammar userAuthToken <;> rfl

/-- The steps of `stage2` in terms of the collaborators' answers. -/
theorem stage2_unfold (env : Env) (userAuthToken : String) (st : State) :
    Auth.stage2 env userAuthToken st =
      match env.findPrivate with
      | none => (.rejected (typeError "Cannot read property fingerprint of undefined"), st)
      | some privateKey =>
        (match env.fetch st.requests.length ⟨env.domain ++ URL_LOGIN, "POST", "include",
          [("data[gpg_auth][keyid]", privateKey.fingerprint),
            ("data[gpg_auth][user_token_result]", userAuthToken)]⟩ with
        | .error e => .rejected e
        | .ok response =>
          if response.ok = false then
            match Auth.onResponseError env response with
            | .error e => .rejected e
            | .ok _ => .pending
          else
            match GpgAuthHeader env response.headers "complete" with
            | .error e => .rejected e
            | .ok auth => .resolved (env.domain ++ jsStr (auth.lookup "x-gpgauth-refer")),
        ⟨st._verifyToken, st.requests ++ [⟨env.domain ++ URL_LOGIN, "POST", "include",
          [("data[gpg_auth][keyid]", privateKey.fingerprint),
            ("data[gpg_auth][user_token_result]", userAuthToken)]⟩],
          st.encryptCalls, st.decryptCalls, st.generated⟩) := by
  unfold Auth.stage2
  cases env.findPrivate with
  | none => rfl
  | some privateKey =>
    simp only [fetch]
    cases env.fetch st.requests.length ⟨env.domain ++ URL_LOGIN, "POST", "include",
        [("data[gpg_auth][keyid]", privateKey.fingerprint),
          ("data[gpg_auth][user_token_result]", userAuthToken)]⟩ with
    | error e => rfl
    | ok response =>
      simp only []
      cases hok : response.ok with
      | false =>
        simp only [Bool.not_false, if_true]
        cases Auth.onResponseError env response <;> rfl
      | true =>
        simp only [Bool.not_true, Bool.false_eq_true, if_false]
        cases GpgAuthHeader env response.headers "complete" <;> rfl

/-- A successful `stage1` sent exactly the stage 1 request. -/
theorem stage1_ok_requests (env : Env) (passphrase token : String) (st st1 : State)
    (h : Auth.stage1 env passphrase st = (.ok token, st1)) :
    ∃ privateKey, env.findPrivate = some privateKey ∧
      st1.requests = st.requests ++ [⟨env.domain ++ URL_LOGIN, "POST", "include",
        [("data[gpg_auth][keyid]", privateKey.fingerprint)]⟩] := by
  rw [stage1_unfold] at h
  cases hkey : env.findPrivate with
  | none => simp [hkey] at h
  | some privateKey =>
    simp only [hkey] at h
    refine ⟨privateKey, rfl, ?_⟩
    repeat' split at h
    all_goals
      simp only [Prod.mk.injEq] at h
      obtain ⟨-, hst⟩ := h
      rw [← hst]

/-- The transport log after `stage1`: nothing was sent, or the one stage 1 request. -/
theorem stage1_requests (env : Env) (passphrase : String) (st : State) :
    (Auth.stage1 env passphrase st).2.requests = st.requests ∨
    ∃ privateKey, env.findPrivate = some privateKey ∧
      (Auth.stage1 env passphrase st).2.requests = st.requests ++
        [⟨env.domain ++ URL_LOGIN, "POST", "include",
          [("data[gpg_auth][keyid]", privateKey.fingerprint)]⟩] := by
  rw [stage1_unfold]
  cases hkey : env.findPrivate with
  | none => left; rfl
  | some privateKey =>
    right
    refine ⟨privateKey, rfl, ?_⟩
    simp only []
    repeat' split
    all_goals rfl

/-- C6: once the passphrase check has succeeded, `login` is `stage2` applied to the token
`stage1` returned, and the `user_token_result` field of the second request is that token;
when `stage1` fails, `login` fails with the error of `stage1`, at most one transport call was
made and no request carrying a `user_token_result` field was sent. -/
theorem login_composes (env : Env) (passphrase : String) (st : State)
    (hcheck : env.checkPassphrase passphrase = .ok ()) :
    (∀ token st1, Auth.stage1 env passphrase st = (.ok token, st1) →
      Auth.login env passphrase st = Auth.stage2 env token st1 ∧
      ∃ privateKey, env.findPrivate = some privateKey ∧
        (Auth.login env passphrase st).2.requests = st.requests ++
          [⟨env.domain ++ URL_LOGIN, "POST", "include",
              [("data[gpg_auth][keyid]", privateKey.fingerprint)]⟩,
            ⟨env.domain ++ URL_LOGIN, "POST", "include",
              [("data[gpg_auth][keyid]", privateKey.fingerprint),
                ("data[gpg_auth][user_token_result]", token)]⟩]) ∧
    (∀ e st1, Auth.stage1 env passphrase st = (.error e, st1) →
      Auth.login env passphrase st = (.rejected e, st1) ∧
      (Auth.login env passphrase st).2.requests.length ≤ st.requests.length + 1 ∧
      ∀ req ∈ (Auth.login env passphrase st).2.requests,
        req ∈ st.requests ∨ req.body.lookup "data[gpg_auth][user_token_result]" = none) := by
  constructor
  · intro token st1 h
    have hlogin : Auth.login env passphrase st = Auth.stage2 env token st1 := by
      unfold Auth.login
      simp only [hcheck, h]
    refine ⟨hlogin, ?_⟩
    obtain ⟨privateKey, hkey, hreq⟩ := stage1_ok_requests env passphrase token st st1 h
    refine ⟨privateKey, hkey, ?_⟩
    rw [hlogin, stage2_unfold]
    simp only [hkey, hreq, List.append_assoc, List.singleton_append]
  · intro e st1 h
    have hlogin : Auth.login env passphrase st = (.rejected e, st1) := by
      unfold Auth.login
      simp only [hcheck, h]
    have hst1 : (Auth.stage1 env passphrase st).2 = st1 := by rw [h]
    refine ⟨hlogin, ?_, ?_⟩
    · rw [hlogin]
      rcases stage1_requests env passphrase st with hreq | ⟨privateKey, -, hreq⟩
      · rw [hst1] at hreq
        simp [hreq]
      · rw [hst1] at hreq
        simp [hreq]
    · rw [hlogin]
      intro req hmem
      rcases stage1_requests env passphrase st with hreq | ⟨privateKey, -, hreq⟩
      · rw [hst1] at hreq
        left
        simpa [hreq] using hmem
      · rw [hst1] at hreq
        simp only [hreq, List.mem_append, List.mem_singleton] at hmem
        rcases hmem with hmem | hmem
        · exact Or.inl hmem
        · right
          subst hmem
          have hne : ("data[gpg_auth][user_token_result]" == "data[gpg_auth][keyid]") = false := by
            decide
          simp only [List.lookup, hne]

/-- C6 at sample inputs: the passphrase `secret` passes the check and stage 1 returns
`tokenB`. -/
theorem login_composes_witness :
    Auth.login (sampleEnv loginResponses) "secret" State.init =
      Auth.stage2 (sampleEnv loginResponses) tokenB
        (Auth.stage1 (sampleEnv loginResponses) "secret" State.init).2 :=
  ((login_composes (sampleEnv loginResponses) "secret" State.init rfl).1 tokenB
    (Auth.stage1 (sampleEnv loginResponses) "secret" State.init).2 (by rfl)).1

/-- C7: on an ok response, if the headers pass the `complete` header validation then
`stage2` resolves with the configured domain followed by the value of the referrer header,
and if the validation fails `stage2` rejects with the validation error. -/
theorem stage2_referrer (env : Env) (userAuthToken : String) (st : State)
    (privateKey : PrivateKey) (response : Response)
    (hkey : env.findPrivate = some privateKey)
    (hfetch : ∀ req, env.fetch st.requests.length req = .ok response)
    (hok : response.ok = true) :
    (∀ auth, GpgAuthHeader env response.headers "complete" = .ok auth →
      ∃ r, auth.lookup "x-gpgauth-refer" = some r ∧
        (Auth.stage2 env userAuthToken st).1 = .resolved (env.domain ++ r)) ∧
    (∀ e, GpgAuthHeader env response.headers "complete" = .error e →
      (Auth.stage2 env userAuthToken st).1 = .rejected e) := by
  constructor
  · intro auth hauth
    obtain ⟨r, hr⟩ := GpgAuthHeader_required env _ _ "complete" "x-gpgauth-refer" hauth
      (by simp [requiredHeaders])
    refine ⟨r, hr, ?_⟩
    rw [stage2_unfold]
    simp [hkey, hfetch, hok, hauth, hr, jsStr]
  · intro e hauth
    rw [stage2_unfold]
    simp [hkey, hfetch, hok, hauth]

/-- C7 at sample inputs: the referrer `/app` is appended to the configured domain. -/
theorem stage2_referrer_witness :
    ∃ r, [("x-gpgauth-refer", "/app")].lookup "x-gpgauth-refer" = some r ∧
      (Auth.stage2 (sampleEnv fun _ => .ok ⟨200, [("X-GPGAuth-Refer", "/app")], .ok .null⟩)
        tokenB State.init).1 = .resolved ("https://passbolt.example" ++ r) :=
  (stage2_referrer (sampleEnv fun _ => .ok ⟨200, [("X-GPGAuth-Refer", "/app")], .ok .null⟩)
    tokenB State.init ⟨"FPR"⟩ ⟨200, [("X-GPGAuth-Refer", "/app")], .ok .null⟩ rfl
    (fun _ => rfl) (by decide)).1 [("x-gpgauth-refer", "/app")] rfl

/-- C9: on an ok stage 1 response, `stage1` returns the decrypted plaintext when it matches
the token grammar and fails with `MalformedToken` when it does not; whatever the
collaborators answer, a string returned by `stage1` matches the token grammar. -/
theorem stage1_token (env : Env) (passphrase : String) (st : State) :
    (∀ privateKey response auth decoded p,
      env.findPrivate = some privateKey →
      (∀ req, env.fetch st.requests.length req = .ok response) →
      response.ok = true →
      GpgAuthHeader env response.headers "stage1" = .ok auth →
      env.urldecode (jsStr (auth.lookup "x-gpgauth-user-auth-token")) = .ok decoded →
      env.decrypt (env.stripslashes decoded) passphrase = .ok p →
      (env.grammar p = true → (Auth.stage1 env passphrase st).1 = .ok p) ∧
      (env.grammar p = false → (Auth.stage1 env passphrase st).1 = .error MalformedToken)) ∧
    (∀ token, (Auth.stage1 env passphrase st).1 = .ok token → env.grammar token = true) := by
  constructor
  · intro privateKey response auth decoded p hkey hfetch hok hauth hdecoded hp
    rw [stage1_unfold]
    simp only [hkey, hfetch, hok, hauth, hdecoded, hp]
    constructor
    · intro hg
      simp [hg]
    · intro hg
      simp [hg]
  · intro token h
    rw [stage1_unfold] at h
    repeat' split at h
    all_goals first
      | (simp only [] at h; cases h; done)
      | (simp only [] at h; exact absurd h (onResponseError_ne_ok env _ token))
      | skip
    all_goals simp_all

/-- C9 at sample inputs: the stage 1 response carries `tokenB`, which the sample `decrypt`
hands back and the grammar accepts. -/
theorem stage1_token_witness :
    (Auth.stage1 (sampleEnv loginResponses) "secret" State.init).1 = .ok tokenB :=
  ((stage1_token (sampleEnv loginResponses) "secret" State.init).1 ⟨"FPR"⟩
    ⟨200, [("X-GPGAuth-User-Auth-Token", tokenB)], .ok .null⟩
    [("x-gpgauth-user-auth-token", tokenB)] tokenB tokenB rfl (fun _ => rfl) (by decide) rfl
    (by rfl) (by rfl)).1 (by decide)

/-- The callback of `verify` leaves the transport and encryption logs as they are. -/
theorem verifyOnResponse_logs (env : Env) (response : Response) (st : State)
    (p : Outcome String) :
    (Auth.verifyOnResponse env response st p).2.requests = st.requests ∧
    (Auth.verifyOnResponse env response st p).2.encryptCalls = st.encryptCalls := by
  unfold Auth.verifyOnResponse
  cases hok : response.ok with
  | false =>
    simp only [Bool.not_false, if_true]
    repeat' split
    all_goals exact ⟨rfl, rfl⟩
  | true =>
    simp only [Bool.not_true, Bool.false_eq_true, if_false]
    cases GpgAuthHeader env response.headers "verify" with
    | error e => exact ⟨rfl, rfl⟩
    | ok auth =>
      simp only []
      cases auth.lookup "x-gpgauth-verify-response" with
      | none =>
        simp only [GpgAuthToken]
        split <;> exact ⟨rfl, rfl⟩
      | some raw =>
        simp only [GpgAuthToken]
        cases env.grammar raw with
        | false => exact ⟨rfl, rfl⟩
        | true =>
          simp only [if_true]
          split <;> exact ⟨rfl, rfl⟩

/-- A structured message in the body of a response is the message of the error. -/
theorem onResponseError_message (env : Env) (response : Response)
    (fields headerFields : List (String × Json)) (m : String)
    (hjson : response.json = .ok (.obj fields))
    (hheader : fields.lookup "header" = some (.obj headerFields))
    (hmessage : headerFields.lookup "message" = some (.str m)) :
    Auth.onResponseError env response = .error (Err.new m) := by
  unfold Auth.onResponseError
  simp [hjson, Json.prop, hheader, hmessage, errorMessageOf]

/-- A body that is not JSON gives the generic message with the status code. -/
theorem onResponseError_unparsable (env : Env) (response : Response) (e : Err)
    (hjson : response.json = .error e) :
    Auth.onResponseError env response = .error (Err.new
      (env.l10n "There was a server error. No additional information provided"
        ++ " (" ++ toString response.status ++ ")")) := by
  unfold Auth.onResponseError
  simp [hjson]

/-- A JSON body other than `null` without a `header` property gives the generic message with
the status code. -/
theorem onResponseError_no_header (env : Env) (response : Response) (json : Json)
    (hjson : response.json = .ok json) (hnull : json ≠ .null)
    (hheader : ∀ fields, json = .obj fields → fields.lookup "header" = none) :
    Auth.onResponseError env response = .error (Err.new
      (env.l10n "There was a server error. No additional information provided"
        ++ " (" ++ toString response.status ++ ")")) := by
  unfold Auth.onResponseError
  cases json with
  | null => exact absurd rfl hnull
  | str s => simp [hjson, Json.prop]
  | lit text => simp [hjson, Json.prop]
  | obj fields => simp [hjson, Json.prop, hheader fields rfl]

/-- C4: on a response with status 500 whose body is the JSON value `null` (a body that
parses and has no `header` field), `onResponseError` rejects with the `TypeError` raised by
reading `json.header`, not with the generic message carrying the status code; `stage1` fails
with the same `TypeError`. -/
theorem onResponseError_null_body :
    Auth.onResponseError (sampleEnv fun _ => .ok (errorResponse (.ok .null)))
        (errorResponse (.ok .null)) =
      .error (typeError "Cannot read property header of null") ∧
    Auth.onResponseError (sampleEnv fun _ => .ok (errorResponse (.ok .null)))
        (errorResponse (.ok .null)) ≠
      .error (Err.new "There was a server error. No additional information provided (500)") ∧
    (Auth.stage1 (sampleEnv fun _ => .ok (errorResponse (.ok .null))) "secret" State.init).1 =
      .error (typeError "Cannot read property header of null") := by
  refine ⟨rfl, ?_, rfl⟩
  intro h
  have h2 : Auth.onResponseError (sampleEnv fun _ => .ok (errorResponse (.ok .null)))
      (errorResponse (.ok .null)) = .error (typeError "Cannot read property header of null") :=
    rfl
  rw [h2] at h
  injection h with h
  revert h
  decide

/-- The outcome of `verify` on a response that is not ok, by the outcome of
`response.json()`: a body that is not JSON, the body `null` and a `header` that is `null`
leave the promise pending. -/
theorem verifyOnResponse_not_ok (env : Env) (response : Response) (st : State)
    (hok : response.ok = false) :
    (Auth.verifyOnResponse env response st .pending).1 =
      match response.json with
      | .error _ => .pending
      | .ok .null => .pending
      | .ok (.obj fields) =>
        match fields.lookup "header" with
        | none => .rejected (Err.new
            (env.l10n "Server request failed without providing additional information."
              ++ " (" ++ toString response.status ++ ")"))
        | some .null => .pending
        | some (.obj headerFields) =>
          .rejected (Err.new (errorMessageOf (headerFields.lookup "message")))
        | some _ => .rejected (Err.new "")
      | .ok _ => .rejected (Err.new
          (env.l10n "Server request failed without providing additional information."
            ++ " (" ++ toString response.status ++ ")")) := by
  unfold Auth.verifyOnResponse
  simp only [hok, Bool.not_false, if_true]
  cases response.json with
  | error e => rfl
  | ok json =>
    cases json with
    | null => rfl
    | str s => rfl
    | lit text => rfl
    | obj fields =>
      simp only [Json.prop]
      cases fields.lookup "header" with
      | none => rfl
      | some header => cases header <;> rfl

/-- C5: `verify` on a response with status 500 whose body is not JSON: the promise is
left pending, it is not rejected with a message carrying the status code. -/
theorem verify_unparsable_error_body :
    (Auth.verify (sampleEnv fun _ => .ok (errorResponse (.error SyntaxError)))
      none none none State.init).1 = .pending ∧
    (Auth.verify (sampleEnv fun _ => .ok (errorResponse (.ok invalidKeyBody)))
      none none none State.init).1 = .rejected (Err.new "Invalid key") := by
  constructor <;> rfl

/-- C8 as stated fails: for the ciphertext `a\b` the header carries `a%5Cb`, and `stage1`
hands `ab` to `Crypto.decrypt`: URL-decoding first brings the backslash back, and
`stripslashes` then removes it. -/
theorem stage1_unescape_order :
    transportEscape "a\\b" = "a%5Cb" ∧
    (Auth.stage1 (sampleEnv fun _ => .ok (stage1Response (transportEscape "a\\b")))
      "secret" State.init).2.decryptCalls = [("ab", "secret")] ∧
    "ab" ≠ "a\\b" := by
  refine ⟨by decide, by decide, by decide⟩

/-- For the same header value, URL-decoding after `stripslashes` gives the ciphertext back. -/
theorem unescape_inverse_order :
    String.mk (urldecode (stripslashes (transportEscape "a\\b").data)) = "a\\b" := by
  decide

/-- C10 (amended): when `serverKey` is not supplied, the nonce is encrypted for
`Crypto.uuid` of the configured domain, whatever `serverUrl` is; when `userFingerprint` is
not supplied, the keyid of the request is the fingerprint of the private key of the
keyring. -/
theorem verify_defaults (env : Env) (serverUrl userFingerprint : Option String) (st : State) :
    (userFingerprint.isSome ∨ env.findPrivate.isSome →
      (Auth.verify env serverUrl none userFingerprint st).2.encryptCalls =
        st.encryptCalls ++ [(env.random st.generated, env.uuid env.domain)]) ∧
    (∀ serverKey privateKey encrypted, env.findPrivate = some privateKey →
      env.encrypt (env.random st.generated) (serverKey.getD (env.uuid env.domain))
        = .ok encrypted →
      (Auth.verify env serverUrl serverKey none st).2.requests =
        st.requests ++ [⟨serverUrl.getD env.domain ++ URL_VERIFY, "POST", "include",
          [("data[gpg_auth][keyid]", privateKey.fingerprint),
            ("data[gpg_auth][server_verify_token]", encrypted)]⟩]) := by
  have hchain : ∀ fingerprint : String,
      (Auth.verify env serverUrl none (some fingerprint) st).2.encryptCalls =
        st.encryptCalls ++ [(env.random st.generated, env.uuid env.domain)] := by
    intro fingerprint
    rw [verify_unfold]
    simp only [Option.getD_none]
    cases env.encrypt (env.random st.generated) (env.uuid env.domain) with
    | error e => rfl
    | ok encrypted =>
      simp only []
      cases env.fetch st.requests.length ⟨serverUrl.getD env.domain ++ URL_VERIFY,
          "POST", "include", [("data[gpg_auth][keyid]", fingerprint),
            ("data[gpg_auth][server_verify_token]", encrypted)]⟩ with
      | error e => rfl
      | ok response =>
        simp only []
        rw [(verifyOnResponse_logs env response _ _).2]
  constructor
  · intro hfp
    cases userFingerprint with
    | some fingerprint => exact hchain fingerprint
    | none =>
      cases hkey : env.findPrivate with
      | none => simp [hkey] at hfp
      | some privateKey =>
        rw [verify_default_fingerprint env serverUrl none st privateKey hkey]
        exact hchain privateKey.fingerprint
  · intro serverKey privateKey encrypted hkey henc
    rw [verify_default_fingerprint env serverUrl serverKey st privateKey hkey, verify_unfold,
      henc]
    simp only []
    cases env.fetch st.requests.length ⟨serverUrl.getD env.domain ++ URL_VERIFY,
        "POST", "include", [("data[gpg_auth][keyid]", privateKey.fingerprint),
          ("data[gpg_auth][server_verify_token]", encrypted)]⟩ with
    | error e => rfl
    | ok response =>
      simp only []
      rw [(verifyOnResponse_logs env response _ _).1]

/-- C10 at sample inputs: a caller passing another server url still encrypts for the
configured domain. -/
theorem verify_defaults_witness :
    (Auth.verify (sampleEnv fun _ => .ok (verifyResponse tokenA))
      (some "https://other.example") none none State.init).2.encryptCalls =
      [] ++ [(tokenA, "uuid-of-" ++ "https://passbolt.example")] :=
  (verify_defaults (sampleEnv fun _ => .ok (verifyResponse tokenA))
    (some "https://other.example") none State.init).1 (by decide)

/-- C10 as stated fails: with `serverUrl` set to `https://other.example` and no `serverKey`,
the nonce is encrypted for the identifier of the configured domain, which is not
`Crypto.uuid(serverUrl)`. -/
theorem verify_default_key_counterexample :
    (Auth.verify (sampleEnv fun _ => .ok (verifyResponse tokenA))
      (some "https://other.example") none none State.init).2.encryptCalls =
      [(tokenA, "uuid-of-https://passbolt.example")] ∧
    "uuid-of-https://passbolt.example" ≠
      (sampleEnv fun _ => .ok (verifyResponse tokenA)).uuid "https://other.example" := by
  constructor <;> decide

theorem stripslashes_cons (c : Char) (rest : List Char) (hc : c ≠ '\\') :
    stripslashes (c :: rest) = c :: stripslashes rest := by
  rw [stripslashes]
  · intro h _
    exact hc h
  · intro c2 rest2 h _
    exact hc h

theorem stripslashes_escaped (c : Char) (rest : List Char) :
    stripslashes ('\\' :: c :: rest) = (if c = '0' then Char.ofNat 0 else c) :: stripslashes rest := by
  rw [stripslashes]

theorem urldecode_cons (c : Char) (rest : List Char) (hc : c ≠ '%') :
    urldecode (c :: rest) = (if c = '+' then ' ' else c) :: urldecode rest := by
  rw [urldecode]
  intro a b r h _
  exact hc h

theorem urldecode_escape (a b : Char) (x y : Nat) (rest : List Char)
    (ha : hexValue a = some x) (hb : hexValue b = some y) :
    urldecode ('%' :: a :: b :: rest) = Char.ofNat (16 * x + y) :: urldecode rest := by
  rw [urldecode]
  simp [ha, hb]

theorem hexValue_hexDigit (n : Nat) (h : n < 16) : hexValue (hexDigit n) = some n := by
  interval_cases n <;> decide

theorem hexDigit_isAlphanum (n : Nat) (h : n < 16) : (hexDigit n).isAlphanum = true := by
  interval_cases n <;> decide

theorem urlSafe_of_isAlphanum (c : Char) (h : c.isAlphanum = true) : urlSafe c = true := by
  simp [urlSafe, h]

theorem urlEncode_urlSafe (c : List Char) (hc : ∀ ch ∈ c, ch.toNat < 256) :
    ∀ ch ∈ urlEncode c, urlSafe ch = true := by
  induction c with
  | nil => simp [urlEncode]
  | cons a rest ih =>
    have ha : a.toNat < 256 := hc a (List.mem_cons_self _ _)
    have ih2 := ih (fun ch hch => hc ch (List.mem_cons_of_mem _ hch))
    unfold urlEncode
    split
    · rename_i h
      intro ch hch
      rcases List.mem_cons.mp hch with rfl | hch
      · simp only [Bool.or_eq_true, decide_eq_true_eq] at h
        simp only [urlSafe, Bool.or_eq_true, decide_eq_true_eq]
        exact Or.inl (Or.inl h)
      · exact ih2 ch hch
    · split
      · intro ch hch
        rcases List.mem_cons.mp hch with rfl | hch
        · decide
        · exact ih2 ch hch
      · intro ch hch
        simp only [List.mem_cons] at hch
        rcases hch with rfl | rfl | rfl | hch
        · decide
        · exact urlSafe_of_isAlphanum _ (hexDigit_isAlphanum _ (by omega))
        · exact urlSafe_of_isAlphanum _ (hexDigit_isAlphanum _ (by omega))
        · exact ih2 ch hch

theorem urlSafe_ne (c : Char) (h : urlSafe c = true) :
    c ≠ '\\' ∧ c ≠ '\'' ∧ c ≠ '"' ∧ c ≠ Char.ofNat 0 := by
  refine ⟨?_, ?_, ?_, ?_⟩ <;> intro hc <;> subst hc <;> revert h <;> decide

theorem backslashEscape_of_urlSafe (l : List Char) (h : ∀ ch ∈ l, urlSafe ch = true) :
    backslashEscape l = l := by
  induction l with
  | nil => rfl
  | cons a rest ih =>
    obtain ⟨h1, h2, h3, h4⟩ := urlSafe_ne a (h a (List.mem_cons_self _ _))
    rw [backslashEscape]
    simp [h1, h2, h3, h4, ih (fun ch hch => h ch (List.mem_cons_of_mem _ hch))]

theorem stripslashes_of_no_backslash (l : List Char) (h : ∀ ch ∈ l, ch ≠ '\\') :
    stripslashes l = l := by
  induction l with
  | nil => rfl
  | cons a rest ih =>
    rw [stripslashes_cons a rest (h a (List.mem_cons_self _ _)),
      ih (fun ch hch => h ch (List.mem_cons_of_mem _ hch))]

theorem stripslashes_backslashEscape (l : List Char) :
    stripslashes (backslashEscape l) = l := by
  induction l with
  | nil => rfl
  | cons a rest ih =>
    rw [backslashEscape]
    split
    · rename_i h
      rw [stripslashes_escaped, ih]
      have : a ≠ '0' := by
        intro ha
        subst ha
        revert h
        decide
      simp [this]
    · split
      · rename_i h
        rw [stripslashes_escaped, ih]
        simp [h]
      · rename_i h1 h2
        have : a ≠ '\\' := by
          intro ha
          subst ha
          revert h1
          decide
        rw [stripslashes_cons _ _ this, ih]

theorem urldecode_urlEncode (c : List Char) (hc : ∀ ch ∈ c, ch.toNat < 256) :
    urldecode (urlEncode c) = c := by
  induction c with
  | nil => rfl
  | cons a rest ih =>
    have ha : a.toNat < 256 := hc a (List.mem_cons_self _ _)
    have ih2 := ih (fun ch hch => hc ch (List.mem_cons_of_mem _ hch))
    rw [urlEncode]
    split
    · rename_i h
      have h1 : a ≠ '%' := by
        intro ha
        subst ha
        revert h
        decide
      have h2 : a ≠ '+' := by
        intro ha
        subst ha
        revert h
        decide
      rw [urldecode_cons _ _ h1, ih2]
      simp [h2]
    · split
      · rename_i h
        rw [urldecode_cons _ _ (by decide), ih2]
        simp [h]
      · rw [urldecode_escape _ _ _ _ _ (hexValue_hexDigit _ (by omega))
          (hexValue_hexDigit _ (by omega)), ih2]
        have : 16 * (a.toNat / 16) + a.toNat % 16 = a.toNat := by omega
        rw [this, Char.ofNat_toNat]

/-- Undoing the backslash escape first and the URL-encoding second gives every ciphertext of
single-byte characters back. -/
theorem unescape_inverse_order_all (c : List Char) (hc : ∀ ch ∈ c, ch.toNat < 256) :
    urldecode (stripslashes (backslashEscape (urlEncode c))) = c := by
  rw [stripslashes_backslashEscape, urldecode_urlEncode c hc]

/-- Undoing the URL-encoding first and the backslash escape second, as `stage1` does, gives
`stripslashes` of the ciphertext: the ciphertext itself when it holds no backslash. -/
theorem unescape_code_order (c : List Char) (hc : ∀ ch ∈ c, ch.toNat < 256) :
    stripslashes (urldecode (backslashEscape (urlEncode c))) = stripslashes c ∧
    ((∀ ch ∈ c, ch ≠ '\\') → stripslashes (urldecode (backslashEscape (urlEncode c))) = c) := by
  have h : stripslashes (urldecode (backslashEscape (urlEncode c))) = stripslashes c := by
    rw [backslashEscape_of_urlSafe _ (urlEncode_urlSafe c hc), urldecode_urlEncode c hc]
  exact ⟨h, fun hno => by rw [h, stripslashes_of_no_backslash c hno]⟩

/-- The argument `stage1` hands to `Crypto.decrypt` on an ok response that passes the
`stage1` header validation: `stripslashes` applied to the URL-decoded header value. -/
theorem stage1_decrypt_argument (env : Env) (passphrase : String) (st : State)
    (privateKey : PrivateKey) (response : Response) (auth : List (String × String))
    (decoded : String)
    (hkey : env.findPrivate = some privateKey)
    (hfetch : ∀ req, env.fetch st.requests.length req = .ok response)
    (hok : response.ok = true)
    (hauth : GpgAuthHeader env response.headers "stage1" = .ok auth)
    (hdecoded : env.urldecode (jsStr (auth.lookup "x-gpgauth-user-auth-token")) = .ok decoded) :
    (Auth.stage1 env passphrase st).2.decryptCalls =
      st.decryptCalls ++ [(env.stripslashes decoded, passphrase)] := by
  rw [stage1_unfold]
  simp only [hkey, hfetch, hok, hauth, hdecoded]
  cases env.decrypt (env.stripslashes decoded) passphrase <;> simp

/-- C8 (amended): when the vendor helpers are the modelled `urldecode` and `stripslashes`, and
the user-auth-token header carries the URL-encoded, then backslash-escaped form of an ASCII
ciphertext `c` that holds no backslash, the value `stage1` hands to `Crypto.decrypt` is
exactly `c`. -/
theorem stage1_unescape_armored (env : Env) (passphrase : String) (st : State)
    (privateKey : PrivateKey) (response : Response) (auth : List (String × String))
    (c : String)
    (hurldecode : ∀ s, env.urldecode s = .ok (String.mk (urldecode s.data)))
    (hstripslashes : ∀ s, env.stripslashes s = String.mk (stripslashes s.data))
    (hkey : env.findPrivate = some privateKey)
    (hfetch : ∀ req, env.fetch st.requests.length req = .ok response)
    (hok : response.ok = true)
    (hauth : GpgAuthHeader env response.headers "stage1" = .ok auth)
    (hheader : auth.lookup "x-gpgauth-user-auth-token" = some (transportEscape c))
    (hascii : ∀ ch ∈ c.data, ch.toNat < 128)
    (hclean : ∀ ch ∈ c.data, ch ≠ '\\') :
    (Auth.stage1 env passphrase st).2.decryptCalls =
      st.decryptCalls ++ [(c, passphrase)] := by
  have hdecoded : env.urldecode (jsStr (auth.lookup "x-gpgauth-user-auth-token")) =
      .ok (String.mk (urldecode (transportEscape c).data)) := by
    rw [hheader]
    exact hurldecode _
  have hbytes : ∀ ch ∈ c.data, ch.toNat < 256 := fun ch hch =>
    Nat.lt_trans (hascii ch hch) (by decide)
  have hvalue : env.stripslashes (String.mk (urldecode (transportEscape c).data)) = c := by
    rw [hstripslashes]
    show String.mk (stripslashes (urldecode (backslashEscape (urlEncode c.data)))) = c
    rw [(unescape_code_order c.data hbytes).2 hclean]
  rw [stage1_decrypt_argument env passphrase st privateKey response auth _ hkey hfetch hok
    hauth hdecoded, hvalue]

/-- C8 at sample inputs: the header carries the escaped form of `armoredSample`. -/
theorem stage1_unescape_armored_witness :
    (Auth.stage1 (sampleEnv fun _ => .ok (stage1Response (transportEscape armoredSample)))
      "secret" State.init).2.decryptCalls = [] ++ [(armoredSample, "secret")] :=
  stage1_unescape_armored
    (sampleEnv fun _ => .ok (stage1Response (transportEscape armoredSample))) "secret"
    State.init ⟨"FPR"⟩ (stage1Response (transportEscape armoredSample))
    [("x-gpgauth-user-auth-token", transportEscape armoredSample)] armoredSample
    (fun _ => rfl) (fun _ => rfl) rfl (fun _ => rfl) (by decide) rfl rfl (by decide)
    (by decide)

/-- The outcome of `getServerKey` on a response that is not ok. -/
theorem getServerKey_not_ok (env : Env) (domain : Option String) (st : State)
    (response : Response)
    (hfetch : ∀ req, env.fetch st.requests.length req = .ok response)
    (hok : response.ok = false) :
    (Auth.getServerKey env domain st).1 = .rejected (Err.new (env.l10n
      "There was a problem trying to understand the data provided by the server")) := by
  unfold Auth.getServerKey
  simp only [fetch, hfetch, Auth.__statusCheck, hok, Bool.not_false, if_true]
  rfl

/-- C12: when `Crypto.encrypt` fails with `e`, `verify` rejects with the message
`Unable to encrypt the verify token.`, a space and the message of `e`; no transport call is
added to the log; and the rejection reason is not the `TypeError` of the later callback. -/
theorem verify_encrypt_failure (env : Env) (serverUrl serverKey userFingerprint : Option String)
    (st : State) (e : Err)
    (hfp : userFingerprint.isSome ∨ env.findPrivate.isSome)
    (henc : env.encrypt (env.random st.generated) (serverKey.getD (env.uuid env.domain))
      = .error e) :
    (Auth.verify env serverUrl serverKey userFingerprint st).1 =
      .rejected (Err.new (env.l10n "Unable to encrypt the verify token." ++ " " ++ e.message)) ∧
    (Auth.verify env serverUrl serverKey userFingerprint st).2.requests = st.requests ∧
    (∀ what, (Auth.verify env serverUrl serverKey userFingerprint st).1 ≠
      .rejected (typeError what)) := by
  have hchain : ∀ fingerprint : String,
      Auth.verify env serverUrl serverKey (some fingerprint) st =
        (.rejected (Err.new
            (env.l10n "Unable to encrypt the verify token." ++ " " ++ e.message)),
          ⟨some (env.random st.generated), st.requests,
            st.encryptCalls ++
              [(env.random st.generated, serverKey.getD (env.uuid env.domain))],
            st.decryptCalls, st.generated + 1⟩) := by
    intro fingerprint
    rw [verify_unfold, henc]
  have hmain : ∃ fingerprint : String,
      Auth.verify env serverUrl serverKey userFingerprint st =
        Auth.verify env serverUrl serverKey (some fingerprint) st := by
    cases userFingerprint with
    | some fingerprint => exact ⟨fingerprint, rfl⟩
    | none =>
      cases hkey : env.findPrivate with
      | none => simp [hkey] at hfp
      | some privateKey =>
        exact ⟨privateKey.fingerprint,
          verify_default_fingerprint env serverUrl serverKey st privateKey hkey⟩
  obtain ⟨fingerprint, hfingerprint⟩ := hmain
  rw [hfingerprint, hchain fingerprint]
  refine ⟨rfl, rfl, ?_⟩
  intro what h
  injection h with h
  simp [Err.new, typeError] at h

/-- C12 at sample inputs: the encryption fails with `encryptError` on a fresh instance. -/
theorem verify_encrypt_failure_witness :
    (Auth.verify (failingEncryptEnv fun _ => .ok (verifyResponse tokenA)) none none none
      State.init).1 = .rejected (Err.new
        ("Unable to encrypt the verify token." ++ " " ++ "The public key could not be found."))
    ∧ (Auth.verify (failingEncryptEnv fun _ => .ok (verifyResponse tokenA)) none none none
      State.init).2.requests = [] :=
  ⟨(verify_encrypt_failure (failingEncryptEnv fun _ => .ok (verifyResponse tokenA)) none none
      none State.init encryptError (by decide) rfl).1,
    (verify_encrypt_failure (failingEncryptEnv fun _ => .ok (verifyResponse tokenA)) none none
      none State.init encryptError (by decide) rfl).2.1⟩

/-- C11 as stated fails: on a response with status 500 whose body carries the message
`Invalid key`, `onResponseError` fails with `Invalid key` and `getServerKey` with another
error, whose message holds neither the server's message nor the status code. -/
theorem getServerKey_policy_counterexample :
    (Auth.getServerKey (sampleEnv fun _ => .ok (errorResponse (.ok invalidKeyBody))) none
      State.init).1 = .rejected (Err.new
        "There was a problem trying to understand the data provided by the server") ∧
    Auth.onResponseError (sampleEnv fun _ => .ok (errorResponse (.ok invalidKeyBody)))
      (errorResponse (.ok invalidKeyBody)) = .error (Err.new "Invalid key") ∧
    Err.new "There was a problem trying to understand the data provided by the server" ≠
      Err.new "Invalid key" := by
  refine ⟨rfl, rfl, by decide⟩

/-- C11 (amended): `getServerKey` does not go through `onResponseError`. On a response that
is not ok, `__statusCheck` throws the generic message that ends with the status code, and
`getServerKey` is rejected, with the same reason whatever the body of the response is. -/
theorem getServerKey_status_policy (env : Env) (domain : Option String) (st : State)
    (status : Nat) (headers : List (String × String)) (json : Except Err Json)
    (hok : (⟨status, headers, json⟩ : Response).ok = false) :
    Auth.__statusCheck env ⟨status, headers, json⟩ = .error (Err.new
      (env.l10n "There was a problem when trying to communicate with the server"
        ++ " (HTTP Code:" ++ toString status ++ ")")) ∧
    (∃ reason, (Auth.getServerKey (answering env status headers json) domain st).1
      = .rejected reason) ∧
    (∀ json2, (Auth.getServerKey (answering env status headers json2) domain st).1 =
      (Auth.getServerKey (answering env status headers json) domain st).1) := by
  refine ⟨?_, ?_, ?_⟩
  · simp only [Auth.__statusCheck, hok, Bool.not_false, if_true]
  · exact ⟨_, getServerKey_not_ok (answering env status headers json) domain st
      ⟨status, headers, json⟩ (fun _ => rfl) hok⟩
  · intro json2
    rw [getServerKey_not_ok (answering env status headers json) domain st
        ⟨status, headers, json⟩ (fun _ => rfl) hok,
      getServerKey_not_ok (answering env status headers json2) domain st
        ⟨status, headers, json2⟩ (fun _ => rfl) hok]
    rfl

/-- C11 at sample inputs: status 500, with the structured body and with a body that is not
JSON. -/
theorem getServerKey_status_policy_witness :
    (Auth.getServerKey (answering (sampleEnv fun _ => .error SyntaxError) 500 []
      (.error SyntaxError)) none State.init).1 =
    (Auth.getServerKey (answering (sampleEnv fun _ => .error SyntaxError) 500 []
      (.ok invalidKeyBody)) none State.init).1 :=
  (getServerKey_status_policy (sampleEnv fun _ => .error SyntaxError) none State.init 500 []
    (.ok invalidKeyBody) (by decide)).2.2 (.error SyntaxError)

/-- The index `indexOf` finds for an absent element is `-1`. -/
theorem indexOf_of_not_mem (xs : List Int) (x : Int) (h : x ∉ xs) : indexOf xs x = -1 := by
  induction xs with
  | nil => rfl
  | cons y rest ih =>
    have hy : y ≠ x := fun hyx => h (hyx ▸ List.mem_cons_self _ _)
    have hrest : indexOf rest x = -1 := ih (fun hmem => h (List.mem_cons_of_mem _ hmem))
    simp [indexOf, hy, hrest]

/-- The index `indexOf` finds for a present element is a position of the list, and removing
the element at that position erases the first occurrence. -/
theorem indexOf_of_mem (xs : List Int) (x : Int) (h : x ∈ xs) :
    ∃ n : Nat, indexOf xs x = (n : Int) ∧ n < xs.length ∧
      xs.take n ++ xs.drop (n + 1) = xs.erase x := by
  induction xs with
  | nil => cases h
  | cons y rest ih =>
    by_cases hy : y = x
    · subst hy
      exact ⟨0, by simp [indexOf], by simp, by simp⟩
    · have hmem : x ∈ rest := by
        rcases List.mem_cons.mp h with hx | hx
        · exact absurd hx.symm hy
        · exact hx
      obtain ⟨n, hn, hlt, herase⟩ := ih hmem
      refine ⟨n + 1, ?_, by simpa using hlt, ?_⟩
      · have hne : (n : Int) ≠ -1 := by omega
        simp only [indexOf, hy, if_false, hn, hne]
        push_cast
        rfl
      · have hbeq : (y == x) = false := by simpa using hy
        simp only [List.take_succ_cons, List.drop_succ_cons, List.cons_append, herase,
          List.erase_cons, hbeq]
        rfl

/-- Closing a tab that is in the list removes its first occurrence. -/
theorem onRemoved_of_mem (tabs : List Int) (tabId : Int) (h : tabId ∈ tabs) :
    PageMod.onRemoved tabs tabId = tabs.erase tabId := by
  obtain ⟨n, hn, hlt, herase⟩ := indexOf_of_mem tabs tabId h
  unfold PageMod.onRemoved splice
  simp only [hn]
  have h1 : ¬ ((n : Int) < 0) := by omega
  have h2 : min (n : Int) (tabs.length : Int) = n := min_eq_left (by omega)
  have h3 : max (1 : Int) 0 = 1 := by decide
  have h4 : min (1 : Int) ((tabs.length : Int) - n) = 1 := min_eq_left (by omega)
  simp only [h1, if_false, h2, h3, h4]
  have h5 : ((n : Int) + 1).toNat = n + 1 := by omega
  rw [Int.toNat_ofNat, h5, herase]

/-- Closing a tab that is not in the list removes the last element of the list. -/
theorem onRemoved_of_not_mem (tabs : List Int) (tabId : Int) (h : tabId ∉ tabs) :
    PageMod.onRemoved tabs tabId = tabs.dropLast := by
  unfold PageMod.onRemoved splice
  simp only [indexOf_of_not_mem tabs tabId h]
  cases tabs with
  | nil => rfl
  | cons y rest =>
    have h1 : ((-1 : Int) < 0) := by decide
    have hlen : (((y :: rest).length : Nat) : Int) = (rest.length : Int) + 1 := by
      simp
    have h2 : max ((rest.length : Int) + 1 + -1) 0 = rest.length := by
      rw [max_eq_left (by omega)]
      omega
    have h3 : max (1 : Int) 0 = 1 := by decide
    have h4 : min (1 : Int) ((rest.length : Int) + 1 - rest.length) = 1 :=
      min_eq_left (by omega)
    simp only [h1, if_true, hlen, h2, h3, h4]
    have h5 : ((rest.length : Int) + 1).toNat = rest.length + 1 := by omega
    rw [Int.toNat_ofNat, h5, List.dropLast_eq_take]
    have h6 : List.drop (rest.length + 1) (y :: rest) = [] := by
      simp
    rw [h6, List.append_nil]
    simp

/-- C13: with two tracked tabs 1 and 2 (added by two connections), closing the untracked tab
3 removes tab 2 from `_tabs`: `indexOf` answers `-1` and `splice(-1, 1)` removes the last
element. -/
theorem onRemoved_untracked_tab :
    PageMod.onConnect "port" none (PageMod.onConnect "port" none [] ⟨"port", 1⟩) ⟨"port", 2⟩
      = [1, 2] ∧
    indexOf [1, 2] 3 = -1 ∧
    PageMod.onRemoved [1, 2] 3 = [1] ∧
    List.count 2 ([1, 2] : List Int) = 1 ∧
    List.count 2 (PageMod.onRemoved [1, 2] 3) = 0 := by
  decide

/-- A call of `init` whose flag differs from `current`. -/
theorem init_changed (isValid : Bool) (settingsDomain : String) (s : PassboltAuth)
    (h : s.current ≠ some isValid) :
    PassboltAuth.init isValid settingsDomain s =
      (true, ⟨some ⟨if isValid then .url (settingsDomain ++ "/auth/login")
            else .regExp "(.*)/auth/login", s.id + 1, isValid,
            if isValid then .url (settingsDomain ++ "/auth/login")
            else .regExp "(.*)/auth/login"⟩,
        s.id + 1, some isValid,
        s.created ++ [⟨if isValid then .url (settingsDomain ++ "/auth/login")
            else .regExp "(.*)/auth/login", s.id + 1, isValid,
            if isValid then .url (settingsDomain ++ "/auth/login")
            else .regExp "(.*)/auth/login"⟩],
        s.destroyed ++ s._pageMod.toList⟩) := by
  have h2 : some isValid ≠ s.current := fun heq => h heq.symm
  unfold PassboltAuth.init
  cases isValid with
  | true =>
    simp only [if_true, h2, ne_eq, not_false_eq_true]
    cases s._pageMod <;> simp
  | false =>
    simp only [Bool.false_eq_true, if_false, h2, ne_eq, not_false_eq_true, if_true]
    cases s._pageMod <;> simp

/-- A call of `init` whose flag equals `current`. -/
theorem init_unchanged (isValid : Bool) (settingsDomain : String) (s : PassboltAuth)
    (h : s.current = some isValid) :
    PassboltAuth.init isValid settingsDomain s = (false, s) := by
  unfold PassboltAuth.init
  cases isValid <;> simp [h]

/-- After a call of `init` the field `current` is the flag of the call. -/
theorem init_current (isValid : Bool) (settingsDomain : String) (s : PassboltAuth) :
    (PassboltAuth.init isValid settingsDomain s).2.current = some isValid := by
  by_cases h : s.current = some isValid
  · rw [init_unchanged isValid settingsDomain s h]
    exact h
  · rw [init_changed isValid settingsDomain s h]

/-- After a sequence of calls that ends with `last`, `current` is the flag of `last`. -/
theorem initAll_current (s : PassboltAuth) (calls : List (Bool × String))
    (last : Bool × String) :
    (PassboltAuth.initAll s (calls ++ [last])).current = some last.1 := by
  induction calls generalizing s with
  | nil => exact init_current last.1 last.2 s
  | cons call rest ih => exact ih (PassboltAuth.init call.1 call.2 s).2

/-- C14: `init` is a change detector over the validity flag. When the flag differs from
`current` it returns `true`, adds one to `id`, sets `current` to the flag, destroys the
previous page-mod if there is one and stores a new one. When the flag equals `current` it
returns `false` and leaves every field as it was. So a second call with the same flag creates
nothing, and after a sequence of calls `current` is the flag of the last call. -/
theorem init_change_detector (isValid : Bool) (settingsDomain : String) (s : PassboltAuth) :
    (s.current ≠ some isValid →
      (PassboltAuth.init isValid settingsDomain s).1 = true ∧
      (PassboltAuth.init isValid settingsDomain s).2.id = s.id + 1 ∧
      (PassboltAuth.init isValid settingsDomain s).2.current = some isValid ∧
      (∃ pageMod, (PassboltAuth.init isValid settingsDomain s).2._pageMod = some pageMod ∧
        pageMod.id = s.id + 1 ∧ pageMod.ready = isValid ∧
        (PassboltAuth.init isValid settingsDomain s).2.created = s.created ++ [pageMod]) ∧
      (PassboltAuth.init isValid settingsDomain s).2.destroyed =
        s.destroyed ++ s._pageMod.toList) ∧
    (s.current = some isValid → PassboltAuth.init isValid settingsDomain s = (false, s)) ∧
    (∀ settingsDomain2,
      PassboltAuth.init isValid settingsDomain2 (PassboltAuth.init isValid settingsDomain s).2 =
        (false, (PassboltAuth.init isValid settingsDomain s).2) ∧
      (PassboltAuth.init isValid settingsDomain2
        (PassboltAuth.init isValid settingsDomain s).2).2.created.length
          ≤ s.created.length + 1) ∧
    (∀ calls : List (Bool × String),
      (PassboltAuth.initAll s (calls ++ [(isValid, settingsDomain)])).current
        = some isValid) := by
  refine ⟨?_, init_unchanged isValid settingsDomain s, ?_, ?_⟩
  · intro h
    rw [init_changed isValid settingsDomain s h]
    exact ⟨rfl, rfl, rfl, ⟨_, rfl, rfl, rfl, rfl⟩, rfl⟩
  · intro settingsDomain2
    have hsecond := init_unchanged isValid settingsDomain2
      (PassboltAuth.init isValid settingsDomain s).2 (init_current isValid settingsDomain s)
    refine ⟨hsecond, ?_⟩
    rw [hsecond]
    by_cases h : s.current = some isValid
    · rw [init_unchanged isValid settingsDomain s h]
      exact Nat.le_succ _
    · rw [init_changed isValid settingsDomain s h]
      simp
  · intro calls
    exact initAll_current s calls (isValid, settingsDomain)

/-- C14 at sample inputs: the first call on the freshly loaded module, with a valid user. -/
theorem init_change_detector_witness :
    (PassboltAuth.init true "https://passbolt.example" PassboltAuth.initial).1 = true ∧
    (PassboltAuth.init true "https://passbolt.example" PassboltAuth.initial).2.id = 0 + 1 ∧
    PassboltAuth.init true "https://passbolt.example"
      (PassboltAuth.init true "https://passbolt.example" PassboltAuth.initial).2 =
      (false, (PassboltAuth.init true "https://passbolt.example" PassboltAuth.initial).2) :=
  ⟨((init_change_detector true "https://passbolt.example" PassboltAuth.initial).1
      (by decide)).1,
    ((init_change_detector true "https://passbolt.example" PassboltAuth.initial).1
      (by decide)).2.1,
    ((init_change_detector true "https://passbolt.example" PassboltAuth.initial).2.2.1
      "https://passbolt.example").1⟩

end Passbolt
